import Mathlib

/-!
Verification development for the DinoRun simulation core: a shallow
embedding, over exact rational arithmetic, of the player kinematics
(Player.cpp), the region geometry (triple collision boxes), the collision
evaluator (Collisionmanager.cpp), the obstacle lifecycle and difficulty
and pattern selector (Obstacle.cpp, ObstacleManager.cpp), and the
simulation driver terminal check (Game.cpp).  Doubles are modelled as
rationals; the random draws consumed by the pattern selector are passed
in explicitly; SFML rectangle shapes are modelled by their position and
size, and the SFML strict AABB intersection test is modelled directly.
-/

namespace DinoRun

/-- An axis-aligned rectangle: SFML FloatRect and RectangleShape global
bounds are modelled by position (left, top) and size (width, height). -/
@[ext] structure Rect where
  left : ℚ
  top : ℚ
  width : ℚ
  height : ℚ
deriving Repr, DecidableEq

/-- Left end of the horizontal projection, after SFML normalisation of a
possibly negative width. -/
def Rect.minX (r : Rect) : ℚ := min r.left (r.left + r.width)

/-- Right end of the horizontal projection. -/
def Rect.maxX (r : Rect) : ℚ := max r.left (r.left + r.width)

/-- Top end of the vertical projection. -/
def Rect.minY (r : Rect) : ℚ := min r.top (r.top + r.height)

/-- Bottom end of the vertical projection. -/
def Rect.maxY (r : Rect) : ℚ := max r.top (r.top + r.height)

/-- CollisionManager::checkRectangleCollision: the global bounds of the two
shapes are compared with the SFML FloatRect::intersects test, which is a
strict AABB overlap test (interLeft < interRight and interTop < interBottom
on the normalised projections). -/
def checkRectangleCollision (rect1 rect2 : Rect) : Bool :=
  decide (max rect1.minX rect2.minX < min rect1.maxX rect2.maxX) &&
  decide (max rect1.minY rect2.minY < min rect1.maxY rect2.maxY)

/-- The intersection rectangle SFML reports when the two rectangles
intersect. -/
def intersectionRect (a b : Rect) : Rect :=
  { left := max a.minX b.minX
    top := max a.minY b.minY
    width := min a.maxX b.maxX - max a.minX b.minX
    height := min a.maxY b.maxY - max a.minY b.minY }

/-- Collision classification (CollisionManager::CollisionType). -/
inductive CollisionType where
  | NO_COLLISION
  | HEAD_COLLISION
  | BODY_COLLISION
  | TAIL_COLLISION
  | MULTIPLE_COLLISION
  | LEGACY_COLLISION
deriving Repr, DecidableEq

/-- CollisionManager::CollisionInfo.  The normal is a real vector because
the source normalises it with a square root; every other field is exact. -/
structure CollisionInfo where
  hasCollision : Bool
  collisionType : CollisionType
  collisionPoint : ℚ × ℚ
  normal : ℝ × ℝ
  penetrationDepth : ℚ
  headHit : Bool
  bodyHit : Bool
  tailHit : Bool

/-- The default-constructed CollisionInfo. -/
def defaultCollisionInfo : CollisionInfo :=
  { hasCollision := false
    collisionType := CollisionType.NO_COLLISION
    collisionPoint := (0, 0)
    normal := (0, 0)
    penetrationDepth := 0
    headHit := false
    bodyHit := false
    tailHit := false }

/-- Normalisation of the direction vector in getDetailedCollision: the
source divides by calculateDistance((0,0), direction) only when that
length is positive, leaving the default zero normal otherwise. -/
noncomputable def normalizedDir (dx dy : ℚ) : ℝ × ℝ :=
  let length : ℝ := Real.sqrt ((dx : ℝ) * (dx : ℝ) + (dy : ℝ) * (dy : ℝ))
  if 0 < length then ((dx : ℝ) / length, (dy : ℝ) / length) else (0, 0)

/-- CollisionManager::getDetailedCollision: on intersection, the collision
point is the centre of the intersection rectangle, the penetration depth
is the minimum of the two overlaps, and the normal is the unit vector from
rect2's centre to rect1's centre (left at its default zero value when the
centres coincide). -/
noncomputable def getDetailedCollision (rect1 rect2 : Rect) : CollisionInfo :=
  if checkRectangleCollision rect1 rect2 then
    let inter := intersectionRect rect1 rect2
    let dx := (rect1.left + rect1.width / 2) - (rect2.left + rect2.width / 2)
    let dy := (rect1.top + rect1.height / 2) - (rect2.top + rect2.height / 2)
    { defaultCollisionInfo with
        hasCollision := true
        collisionPoint := (inter.left + inter.width / 2, inter.top + inter.height / 2)
        penetrationDepth := min inter.width inter.height
        normal := normalizedDir dx dy }
  else
    defaultCollisionInfo

/-- CollisionManager::determineCollisionType: classification by the number
of boxes hit, then by which single box was hit. -/
def determineCollisionType (headHit bodyHit tailHit : Bool) : CollisionType :=
  let hitCount := (if headHit then 1 else 0) + (if bodyHit then 1 else 0) +
    (if tailHit then 1 else 0)
  if hitCount = 0 then CollisionType.NO_COLLISION
  else if hitCount > 1 then CollisionType.MULTIPLE_COLLISION
  else if headHit then CollisionType.HEAD_COLLISION
  else if bodyHit then CollisionType.BODY_COLLISION
  else if tailHit then CollisionType.TAIL_COLLISION
  else CollisionType.NO_COLLISION

/-! Player constants (Player.cpp), doubles read as exact rationals. -/

/-- Ground level Y coordinate. -/
def GROUND_Y : ℚ := 400

/-- Initial jump velocity (negative is upward in screen coordinates). -/
def JUMP_STRENGTH : ℚ := -400

/-- Gravity acceleration. -/
def GRAVITY : ℚ := 700

/-- Enhanced gravity factor applied while fast falling. -/
def FAST_FALL_MULTIPLIER : ℚ := 5 / 2

/-- Maximum fall speed while fast falling. -/
def FAST_FALL_TERMINAL_VELOCITY : ℚ := 800

/-- Running animation frames per second. -/
def RUNNING_ANIMATION_SPEED : ℚ := 8

/-- Default player width (DEFAULT_SIZE.x = 60.0). -/
def defaultSizeX : ℚ := 60

/-- Default player height (DEFAULT_SIZE.y = 64.5). -/
def defaultSizeY : ℚ := 129 / 2

/-- Ducking target width (110.0f * 3 / 4 = 82.5). -/
def duckSizeX : ℚ := 165 / 2

/-- Ducking target height (53.0f * 3 / 4 = 39.75). -/
def duckSizeY : ℚ := 159 / 4

/-- Head box width as a fraction of the target width (0.5). -/
def headWidthRatio : ℚ := 1 / 2

/-- Head box height fraction (0.47). -/
def headHeightRatio : ℚ := 47 / 100

/-- Body box width fraction (0.4). -/
def bodyWidthRatio : ℚ := 2 / 5

/-- Body box height fraction (0.66). -/
def bodyHeightRatio : ℚ := 33 / 50

/-- Tail box width fraction (0.25). -/
def tailWidthRatio : ℚ := 1 / 4

/-- Tail box height fraction (0.37). -/
def tailHeightRatio : ℚ := 37 / 100

/-! Region geometry: the three collision boxes each state layout gives, as
functions of the player position (px, py) and target size (tx, ty),
verbatim from Player::updateNormalStateCollision,
Player::updateDuckingStateCollision and the fast-fall branch of
Player::updateTripleCollisionBoxes. -/

/-- Head box of the normal (running and jumping) layout. -/
def normalHeadBox (px py tx ty : ℚ) : Rect :=
  { left := px + (tx - tx * headWidthRatio)
    top := py + 0
    width := tx * headWidthRatio
    height := ty * headHeightRatio }

/-- Body box of the normal layout: offset x is targetSize.x minus
bodyWidth / 0.55, offset y is targetSize.y * HEAD_HEIGHT_RATIO / 1.4. -/
def normalBodyBox (px py tx ty : ℚ) : Rect :=
  { left := px + (tx - tx * bodyWidthRatio / (11 / 20))
    top := py + ty * headHeightRatio / (7 / 5)
    width := tx * bodyWidthRatio
    height := ty * bodyHeightRatio }

/-- Tail box of the normal layout. -/
def normalTailBox (px py tx ty : ℚ) : Rect :=
  { left := px - 0
    top := py + ty * (3 / 10)
    width := tx * tailWidthRatio
    height := ty * tailHeightRatio }

/-- Head box of the ducking layout (ratios scaled by 0.8 and 0.9). -/
def duckHeadBox (px py tx ty : ℚ) : Rect :=
  { left := px + (tx - tx * (headWidthRatio * (4 / 5)))
    top := py + ty * (1 / 10)
    width := tx * (headWidthRatio * (4 / 5))
    height := ty * (headHeightRatio * (9 / 10)) }

/-- Body box of the ducking layout (wider and lower). -/
def duckBodyBox (px py tx ty : ℚ) : Rect :=
  { left := px + (tx - tx * (bodyWidthRatio * (13 / 10))) / 2
    top := py + ty * (3 / 10)
    width := tx * (bodyWidthRatio * (13 / 10))
    height := ty * (bodyHeightRatio * (4 / 5)) }

/-- Tail box of the ducking layout: the source computes offsets but then
positions the box at (posX, posY). -/
def duckTailBox (px py tx ty : ℚ) : Rect :=
  { left := px
    top := py
    width := tx * (tailWidthRatio * (6 / 5))
    height := ty * (tailHeightRatio * (9 / 10)) }

/-- Head box while fast falling: the x position and the size are carried
over from the normal layout, the top is lowered by a tenth of the target
height. -/
def ffHeadBox (px py tx ty : ℚ) : Rect :=
  { left := px + (tx - tx * headWidthRatio)
    top := py + ty * (1 / 10)
    width := tx * headWidthRatio
    height := ty * headHeightRatio }

/-- Body box while fast falling. -/
def ffBodyBox (px py tx ty : ℚ) : Rect :=
  { left := px + (tx - tx * bodyWidthRatio / (11 / 20))
    top := py + ty * (1 / 10)
    width := tx * bodyWidthRatio
    height := ty * bodyHeightRatio }

/-- Tail box while fast falling: its width is reset to a quarter of the
default sprite width, its height is carried over. -/
def ffTailBox (px py tx ty : ℚ) : Rect :=
  { left := px + tx * (7 / 100)
    top := py + ty * (1 / 50)
    width := defaultSizeX * tailWidthRatio
    height := ty * tailHeightRatio }

/-- The player state: position, vertical velocity, the four state flags,
animation bookkeeping, target size, and the stored collision rectangles
(the fast-fall layout reads the previously stored boxes, so the boxes are
state, exactly as in the source). -/
structure PlayerState where
  posX : ℚ
  posY : ℚ
  velocityY : ℚ
  isJumping : Bool
  isDucking : Bool
  isFastFalling : Bool
  duckPressed : Bool
  animationTimer : ℚ
  isRunningAnimationFrame1 : Bool
  targetSizeX : ℚ
  targetSizeY : ℚ
  headBox : Rect
  bodyBox : Rect
  tailBox : Rect
  boundingBox : Rect
deriving Repr, DecidableEq

namespace Player

/-- Player::updateNormalStateCollision. -/
def updateNormalStateCollision (s : PlayerState) : PlayerState :=
  { s with
    headBox := normalHeadBox s.posX s.posY s.targetSizeX s.targetSizeY
    bodyBox := normalBodyBox s.posX s.posY s.targetSizeX s.targetSizeY
    tailBox := normalTailBox s.posX s.posY s.targetSizeX s.targetSizeY }

/-- Player::updateDuckingStateCollision. -/
def updateDuckingStateCollision (s : PlayerState) : PlayerState :=
  { s with
    headBox := duckHeadBox s.posX s.posY s.targetSizeX s.targetSizeY
    bodyBox := duckBodyBox s.posX s.posY s.targetSizeX s.targetSizeY
    tailBox := duckTailBox s.posX s.posY s.targetSizeX s.targetSizeY }

/-- Player::updateJumpingStateCollision reuses the normal layout. -/
def updateJumpingStateCollision (s : PlayerState) : PlayerState :=
  updateNormalStateCollision s

/-- The fast-fall branch of Player::updateTripleCollisionBoxes: the head
and body boxes keep their stored x position and size and only their top is
recomputed; the tail box is resized from the default sprite width and
repositioned. -/
def updateFastFallCollision (s : PlayerState) : PlayerState :=
  { s with
    headBox := { s.headBox with top := s.posY + s.targetSizeY * (1 / 10) }
    bodyBox := { s.bodyBox with top := s.posY + s.targetSizeY * (1 / 10) }
    tailBox :=
      { left := s.posX + s.targetSizeX * (7 / 100)
        top := s.posY + s.targetSizeY * (1 / 50)
        width := defaultSizeX * tailWidthRatio
        height := s.tailBox.height } }

/-- Player::updateLegacyBoundingBox: the legacy bounding box copies the
body collision box's size and position. -/
def updateLegacyBoundingBox (s : PlayerState) : PlayerState :=
  { s with boundingBox := s.bodyBox }

/-- Player::updateTripleCollisionBoxes: dispatch on the state flags, then
refresh the legacy bounding box. -/
def updateTripleCollisionBoxes (s : PlayerState) : PlayerState :=
  updateLegacyBoundingBox
    (if s.isDucking then updateDuckingStateCollision s
     else if s.isFastFalling then updateFastFallCollision s
     else if s.isJumping then updateJumpingStateCollision s
     else updateNormalStateCollision s)

/-- The Player constructor Player::Player(startX, startY): all flags
cleared, default target size, default-constructed (zero) rectangles, then
an initial updateTripleCollisionBoxes. -/
def construct (startX startY : ℚ) : PlayerState :=
  updateTripleCollisionBoxes
    { posX := startX
      posY := startY
      velocityY := 0
      isJumping := false
      isDucking := false
      isFastFalling := false
      duckPressed := false
      animationTimer := 0
      isRunningAnimationFrame1 := true
      targetSizeX := defaultSizeX
      targetSizeY := defaultSizeY
      headBox := { left := 0, top := 0, width := 0, height := 0 }
      bodyBox := { left := 0, top := 0, width := 0, height := 0 }
      tailBox := { left := 0, top := 0, width := 0, height := 0 }
      boundingBox := { left := 0, top := 0, width := 0, height := 0 } }

/-- Player::jump: only from a state that is neither jumping nor ducking. -/
def jump (s : PlayerState) : PlayerState :=
  if !s.isJumping && !s.isDucking then
    { s with velocityY := JUMP_STRENGTH, isJumping := true }
  else s

/-- Player::startDucking: the duck key is latched and the target size set
to the ducking profile with an immediate box refresh; airborne it starts
a fast fall (cutting the jump to a small downward velocity if still
ascending, else flooring the fall speed at 200), grounded it crouches and
glues the feet to the ground line. -/
def startDucking (s : PlayerState) : PlayerState :=
  let s1 := updateTripleCollisionBoxes
    { s with duckPressed := true, targetSizeX := duckSizeX, targetSizeY := duckSizeY }
  if s1.isJumping then
    if !s1.isFastFalling then
      let v := if s1.velocityY < 0 then (3 / 10 : ℚ) else max s1.velocityY 200
      updateTripleCollisionBoxes { s1 with isFastFalling := true, velocityY := v }
    else s1
  else
    if !s1.isDucking then
      updateTripleCollisionBoxes
        { s1 with isDucking := true, posY := GROUND_Y - duckSizeY + defaultSizeY }
    else s1

/-- Player::stopDucking: release the latch; airborne it ends the fast fall
and restores the default size, grounded it stands back up. -/
def stopDucking (s : PlayerState) : PlayerState :=
  let s1 := { s with duckPressed := false }
  if s1.isJumping then
    if s1.isFastFalling then
      updateTripleCollisionBoxes
        { s1 with isFastFalling := false, targetSizeX := defaultSizeX,
                  targetSizeY := defaultSizeY }
    else s1
  else
    if s1.isDucking then
      updateTripleCollisionBoxes
        { s1 with isDucking := false, targetSizeX := defaultSizeX,
                  targetSizeY := defaultSizeY, posY := GROUND_Y }
    else s1

/-- Player::updateRunningAnimation: a frame toggle on a fixed cadence. -/
def updateRunningAnimation (dt : ℚ) (s : PlayerState) : PlayerState :=
  let t := s.animationTimer + dt
  if t ≥ 1 / RUNNING_ANIMATION_SPEED then
    { s with animationTimer := 0,
             isRunningAnimationFrame1 := !s.isRunningAnimationFrame1 }
  else
    { s with animationTimer := t }

/-- The physics integration step of Player::update while jumping: the fall
speed is first capped at the terminal velocity when fast falling, then
gravity (enhanced by the fast-fall factor when fast falling) is applied,
then the position advances by the new velocity; returns (new velocity,
new y position). -/
def integrateJump (dt : ℚ) (s : PlayerState) : ℚ × ℚ :=
  let v0 := if s.isFastFalling && decide (s.velocityY > FAST_FALL_TERMINAL_VELOCITY)
    then FAST_FALL_TERMINAL_VELOCITY else s.velocityY
  let g := if s.isFastFalling then GRAVITY * FAST_FALL_MULTIPLIER else GRAVITY
  let v1 := v0 + g * dt
  (v1, s.posY + v1 * dt)

/-- Player::update(deltaTime): while jumping, cap the fall speed when fast
falling, integrate gravity (enhanced while fast falling), and on reaching
the ground resolve into ducking or running depending on the latched duck
key; then advance the running animation when grounded, and refresh the
collision boxes. -/
def update (dt : ℚ) (s : PlayerState) : PlayerState :=
  let s1 :=
    if s.isJumping then
      let v1 := (integrateJump dt s).1
      let y1 := (integrateJump dt s).2
      if y1 ≥ GROUND_Y then
        let s2 := { s with posY := GROUND_Y, velocityY := 0, isJumping := false,
                           isFastFalling := false }
        if s2.duckPressed then
          { s2 with isDucking := true, targetSizeX := duckSizeX, targetSizeY := duckSizeY,
                    posY := GROUND_Y - duckSizeY + defaultSizeY }
        else
          { s2 with isDucking := false, targetSizeX := defaultSizeX,
                    targetSizeY := defaultSizeY }
      else
        { s with velocityY := v1, posY := y1 }
    else s
  let s2 := if !s1.isJumping then updateRunningAnimation dt s1 else s1
  updateTripleCollisionBoxes s2

/-- Player::reset: back to the initial state at (100, GROUND_Y). -/
def reset (s : PlayerState) : PlayerState :=
  updateTripleCollisionBoxes
    { s with posX := 100, posY := GROUND_Y, velocityY := 0, isJumping := false,
             isDucking := false, isFastFalling := false, duckPressed := false,
             animationTimer := 0, isRunningAnimationFrame1 := true,
             targetSizeX := defaultSizeX, targetSizeY := defaultSizeY }

end Player

/-- The reachable player states: a constructed player followed by any
sequence of the public operations. -/
inductive PReach : PlayerState → Prop
  | init (x y : ℚ) : PReach (Player.construct x y)
  | jump {s : PlayerState} : PReach s → PReach (Player.jump s)
  | duck {s : PlayerState} : PReach s → PReach (Player.startDucking s)
  | stopDuck {s : PlayerState} : PReach s → PReach (Player.stopDucking s)
  | step {s : PlayerState} (dt : ℚ) : PReach s → PReach (Player.update dt s)
  | reset {s : PlayerState} : PReach s → PReach (Player.reset s)

namespace Player

@[simp] lemma triple_posX (s : PlayerState) :
    (updateTripleCollisionBoxes s).posX = s.posX := by
  unfold updateTripleCollisionBoxes updateLegacyBoundingBox updateDuckingStateCollision
    updateFastFallCollision updateJumpingStateCollision updateNormalStateCollision
  split_ifs <;> rfl

@[simp] lemma triple_posY (s : PlayerState) :
    (updateTripleCollisionBoxes s).posY = s.posY := by
  unfold updateTripleCollisionBoxes updateLegacyBoundingBox updateDuckingStateCollision
    updateFastFallCollision updateJumpingStateCollision updateNormalStateCollision
  split_ifs <;> rfl

@[simp] lemma triple_velocityY (s : PlayerState) :
    (updateTripleCollisionBoxes s).velocityY = s.velocityY := by
  unfold updateTripleCollisionBoxes updateLegacyBoundingBox updateDuckingStateCollision
    updateFastFallCollision updateJumpingStateCollision updateNormalStateCollision
  split_ifs <;> rfl

@[simp] lemma triple_isJumping (s : PlayerState) :
    (updateTripleCollisionBoxes s).isJumping = s.isJumping := by
  unfold updateTripleCollisionBoxes updateLegacyBoundingBox updateDuckingStateCollision
    updateFastFallCollision updateJumpingStateCollision updateNormalStateCollision
  split_ifs <;> rfl

@[simp] lemma triple_isDucking (s : PlayerState) :
    (updateTripleCollisionBoxes s).isDucking = s.isDucking := by
  unfold updateTripleCollisionBoxes updateLegacyBoundingBox updateDuckingStateCollision
    updateFastFallCollision updateJumpingStateCollision updateNormalStateCollision
  split_ifs <;> rfl

@[simp] lemma triple_isFastFalling (s : PlayerState) :
    (updateTripleCollisionBoxes s).isFastFalling = s.isFastFalling := by
  unfold updateTripleCollisionBoxes updateLegacyBoundingBox updateDuckingStateCollision
    updateFastFallCollision updateJumpingStateCollision updateNormalStateCollision
  split_ifs <;> rfl

@[simp] lemma triple_duckPressed (s : PlayerState) :
    (updateTripleCollisionBoxes s).duckPressed = s.duckPressed := by
  unfold updateTripleCollisionBoxes updateLegacyBoundingBox updateDuckingStateCollision
    updateFastFallCollision updateJumpingStateCollision updateNormalStateCollision
  split_ifs <;> rfl

@[simp] lemma triple_animationTimer (s : PlayerState) :
    (updateTripleCollisionBoxes s).animationTimer = s.animationTimer := by
  unfold updateTripleCollisionBoxes updateLegacyBoundingBox updateDuckingStateCollision
    updateFastFallCollision updateJumpingStateCollision updateNormalStateCollision
  split_ifs <;> rfl

@[simp] lemma triple_frame1 (s : PlayerState) :
    (updateTripleCollisionBoxes s).isRunningAnimationFrame1 = s.isRunningAnimationFrame1 := by
  unfold updateTripleCollisionBoxes updateLegacyBoundingBox updateDuckingStateCollision
    updateFastFallCollision updateJumpingStateCollision updateNormalStateCollision
  split_ifs <;> rfl

@[simp] lemma triple_targetSizeX (s : PlayerState) :
    (updateTripleCollisionBoxes s).targetSizeX = s.targetSizeX := by
  unfold updateTripleCollisionBoxes updateLegacyBoundingBox updateDuckingStateCollision
    updateFastFallCollision updateJumpingStateCollision updateNormalStateCollision
  split_ifs <;> rfl

@[simp] lemma triple_targetSizeY (s : PlayerState) :
    (updateTripleCollisionBoxes s).targetSizeY = s.targetSizeY := by
  unfold updateTripleCollisionBoxes updateLegacyBoundingBox updateDuckingStateCollision
    updateFastFallCollision updateJumpingStateCollision updateNormalStateCollision
  split_ifs <;> rfl

@[simp] lemma triple_boundingBox (s : PlayerState) :
    (updateTripleCollisionBoxes s).boundingBox = (updateTripleCollisionBoxes s).bodyBox := by
  unfold updateTripleCollisionBoxes updateLegacyBoundingBox updateDuckingStateCollision
    updateFastFallCollision updateJumpingStateCollision updateNormalStateCollision
  split_ifs <;> rfl

@[simp] lemma anim_posX (dt : ℚ) (s : PlayerState) :
    (updateRunningAnimation dt s).posX = s.posX := by
  simp only [updateRunningAnimation]
  split_ifs <;> rfl

@[simp] lemma anim_posY (dt : ℚ) (s : PlayerState) :
    (updateRunningAnimation dt s).posY = s.posY := by
  simp only [updateRunningAnimation]
  split_ifs <;> rfl

@[simp] lemma anim_velocityY (dt : ℚ) (s : PlayerState) :
    (updateRunningAnimation dt s).velocityY = s.velocityY := by
  simp only [updateRunningAnimation]
  split_ifs <;> rfl

@[simp] lemma anim_isJumping (dt : ℚ) (s : PlayerState) :
    (updateRunningAnimation dt s).isJumping = s.isJumping := by
  simp only [updateRunningAnimation]
  split_ifs <;> rfl

@[simp] lemma anim_isDucking (dt : ℚ) (s : PlayerState) :
    (updateRunningAnimation dt s).isDucking = s.isDucking := by
  simp only [updateRunningAnimation]
  split_ifs <;> rfl

@[simp] lemma anim_isFastFalling (dt : ℚ) (s : PlayerState) :
    (updateRunningAnimation dt s).isFastFalling = s.isFastFalling := by
  simp only [updateRunningAnimation]
  split_ifs <;> rfl

@[simp] lemma anim_duckPressed (dt : ℚ) (s : PlayerState) :
    (updateRunningAnimation dt s).duckPressed = s.duckPressed := by
  simp only [updateRunningAnimation]
  split_ifs <;> rfl

@[simp] lemma anim_targetSizeX (dt : ℚ) (s : PlayerState) :
    (updateRunningAnimation dt s).targetSizeX = s.targetSizeX := by
  simp only [updateRunningAnimation]
  split_ifs <;> rfl

@[simp] lemma anim_targetSizeY (dt : ℚ) (s : PlayerState) :
    (updateRunningAnimation dt s).targetSizeY = s.targetSizeY := by
  simp only [updateRunningAnimation]
  split_ifs <;> rfl

@[simp] lemma anim_headBox (dt : ℚ) (s : PlayerState) :
    (updateRunningAnimation dt s).headBox = s.headBox := by
  simp only [updateRunningAnimation]
  split_ifs <;> rfl

@[simp] lemma anim_bodyBox (dt : ℚ) (s : PlayerState) :
    (updateRunningAnimation dt s).bodyBox = s.bodyBox := by
  simp only [updateRunningAnimation]
  split_ifs <;> rfl

@[simp] lemma anim_tailBox (dt : ℚ) (s : PlayerState) :
    (updateRunningAnimation dt s).tailBox = s.tailBox := by
  simp only [updateRunningAnimation]
  split_ifs <;> rfl

@[simp] lemma anim_boundingBox (dt : ℚ) (s : PlayerState) :
    (updateRunningAnimation dt s).boundingBox = s.boundingBox := by
  simp only [updateRunningAnimation]
  split_ifs <;> rfl

end Player

/-- The stored boxes agree with the normal-state layout. -/
def boxesNormal (s : PlayerState) : Prop :=
  s.headBox = normalHeadBox s.posX s.posY s.targetSizeX s.targetSizeY ∧
  s.bodyBox = normalBodyBox s.posX s.posY s.targetSizeX s.targetSizeY ∧
  s.tailBox = normalTailBox s.posX s.posY s.targetSizeX s.targetSizeY

/-- The stored boxes agree with the ducking layout. -/
def boxesDuck (s : PlayerState) : Prop :=
  s.headBox = duckHeadBox s.posX s.posY s.targetSizeX s.targetSizeY ∧
  s.bodyBox = duckBodyBox s.posX s.posY s.targetSizeX s.targetSizeY ∧
  s.tailBox = duckTailBox s.posX s.posY s.targetSizeX s.targetSizeY

/-- The stored boxes agree with the fast-fall layout. -/
def boxesFF (s : PlayerState) : Prop :=
  s.headBox = ffHeadBox s.posX s.posY s.targetSizeX s.targetSizeY ∧
  s.bodyBox = ffBodyBox s.posX s.posY s.targetSizeX s.targetSizeY ∧
  s.tailBox = ffTailBox s.posX s.posY s.targetSizeX s.targetSizeY

/-- What the fast-fall branch needs of the previously stored boxes: the
head and body x positions and sizes of the normal layout (which the
fast-fall layout shares), and the normal tail height. -/
def ffPre (s : PlayerState) : Prop :=
  s.headBox.left = s.posX + (s.targetSizeX - s.targetSizeX * headWidthRatio) ∧
  s.headBox.width = s.targetSizeX * headWidthRatio ∧
  s.headBox.height = s.targetSizeY * headHeightRatio ∧
  s.bodyBox.left = s.posX + (s.targetSizeX - s.targetSizeX * bodyWidthRatio / (11 / 20)) ∧
  s.bodyBox.width = s.targetSizeX * bodyWidthRatio ∧
  s.bodyBox.height = s.targetSizeY * bodyHeightRatio ∧
  s.tailBox.height = s.targetSizeY * tailHeightRatio

lemma boxesNormal_ffPre (s : PlayerState) (h : boxesNormal s) : ffPre s := by
  obtain ⟨h1, h2, h3⟩ := h
  refine ⟨?_, ?_, ?_, ?_, ?_, ?_, ?_⟩ <;>
    simp [h1, h2, h3, normalHeadBox, normalBodyBox, normalTailBox]

lemma boxesFF_ffPre (s : PlayerState) (h : boxesFF s) : ffPre s := by
  obtain ⟨h1, h2, h3⟩ := h
  refine ⟨?_, ?_, ?_, ?_, ?_, ?_, ?_⟩ <;>
    simp [h1, h2, h3, ffHeadBox, ffBodyBox, ffTailBox]

namespace Player

lemma triple_of_duck (s : PlayerState) (hd : s.isDucking = true) :
    boxesDuck (updateTripleCollisionBoxes s) := by
  unfold updateTripleCollisionBoxes updateLegacyBoundingBox updateDuckingStateCollision
  rw [hd]
  simp [boxesDuck]

lemma triple_of_normal (s : PlayerState) (hd : s.isDucking = false)
    (hf : s.isFastFalling = false) :
    boxesNormal (updateTripleCollisionBoxes s) := by
  unfold updateTripleCollisionBoxes updateLegacyBoundingBox updateJumpingStateCollision
    updateNormalStateCollision
  rw [hd, hf]
  by_cases hj : s.isJumping = true <;> simp [hj, boxesNormal]

lemma triple_of_ff (s : PlayerState) (hd : s.isDucking = false)
    (hf : s.isFastFalling = true) (hpre : ffPre s) :
    boxesFF (updateTripleCollisionBoxes s) := by
  obtain ⟨p1, p2, p3, p4, p5, p6, p7⟩ := hpre
  unfold updateTripleCollisionBoxes updateLegacyBoundingBox updateFastFallCollision
  rw [hd, hf]
  simp only [boxesFF]
  refine ⟨?_, ?_, ?_⟩ <;>
    simp [ffHeadBox, ffBodyBox, ffTailBox, p1, p2, p3, p4, p5, p6, p7, Rect.ext_iff]

end Player

/-- The player state invariant: the target size is one of the two profiles,
the legacy bounding box mirrors the body box, fast fall only occurs
airborne at the ducking profile, ducking only occurs grounded, and the
stored boxes agree with the layout of the current state. -/
def playerInv (s : PlayerState) : Prop :=
  ((s.targetSizeX = defaultSizeX ∧ s.targetSizeY = defaultSizeY) ∨
   (s.targetSizeX = duckSizeX ∧ s.targetSizeY = duckSizeY)) ∧
  s.boundingBox = s.bodyBox ∧
  (s.isFastFalling = true →
    s.isJumping = true ∧ s.targetSizeX = duckSizeX ∧ s.targetSizeY = duckSizeY) ∧
  (s.isDucking = true → s.isJumping = false ∧ s.isFastFalling = false) ∧
  (if s.isDucking then boxesDuck s
   else if s.isFastFalling then boxesFF s
   else boxesNormal s)

lemma inv_of_triple (s : PlayerState)
    (hsize : (s.targetSizeX = defaultSizeX ∧ s.targetSizeY = defaultSizeY) ∨
             (s.targetSizeX = duckSizeX ∧ s.targetSizeY = duckSizeY))
    (hffimp : s.isFastFalling = true →
      s.isJumping = true ∧ s.targetSizeX = duckSizeX ∧ s.targetSizeY = duckSizeY)
    (hduckimp : s.isDucking = true → s.isJumping = false ∧ s.isFastFalling = false)
    (hffpre : s.isDucking = false → s.isFastFalling = true → ffPre s) :
    playerInv (Player.updateTripleCollisionBoxes s) := by
  refine ⟨?_, Player.triple_boundingBox s, ?_, ?_, ?_⟩
  · simpa using hsize
  · intro h
    simpa using hffimp (by simpa using h)
  · intro h
    simpa using hduckimp (by simpa using h)
  · by_cases hd : s.isDucking = true
    · simp only [Player.triple_isDucking, hd, if_true]
      exact Player.triple_of_duck s hd
    · have hd2 : s.isDucking = false := by simpa using hd
      by_cases hf : s.isFastFalling = true
      · simp only [Player.triple_isDucking, Player.triple_isFastFalling, hd2, hf,
          Bool.false_eq_true, if_false, if_true]
        exact Player.triple_of_ff s hd2 hf (hffpre hd2 hf)
      · have hf2 : s.isFastFalling = false := by simpa using hf
        simp only [Player.triple_isDucking, Player.triple_isFastFalling, hd2, hf2,
          Bool.false_eq_true, if_false]
        exact Player.triple_of_normal s hd2 hf2

lemma inv_construct (x y : ℚ) : playerInv (Player.construct x y) := by
  unfold Player.construct
  exact inv_of_triple _ (Or.inl ⟨rfl, rfl⟩) (by intro h; simp at h)
    (by intro h; simp at h) (by intro _ h; simp at h)

lemma inv_jump (s : PlayerState) (h : playerInv s) : playerInv (Player.jump s) := by
  obtain ⟨hsize, hbb, hffimp, hduckimp, hboxes⟩ := h
  unfold Player.jump
  by_cases hcond : (!s.isJumping && !s.isDucking) = true
  · have hcond2 := hcond
    rw [Bool.and_eq_true] at hcond2
    have hj : s.isJumping = false := by simpa using hcond2.1
    have hd : s.isDucking = false := by simpa using hcond2.2
    have hf : s.isFastFalling = false := by
      by_cases hf : s.isFastFalling = true
      · exact absurd (hffimp hf).1 (by simp [hj])
      · simpa using hf
    rw [if_pos hcond]
    refine ⟨by simpa using hsize, by simpa using hbb, ?_, ?_, ?_⟩
    · intro hc
      exact absurd hc (by simp [hf])
    · intro hc
      exact absurd hc (by simp [hd])
    · simp only [hd, hf, Bool.false_eq_true, if_false] at hboxes ⊢
      exact hboxes
  · rw [if_neg hcond]
    exact ⟨hsize, hbb, hffimp, hduckimp, hboxes⟩

lemma inv_startDucking (s : PlayerState) (h : playerInv s) :
    playerInv (Player.startDucking s) := by
  obtain ⟨hsize, hbb, hffimp, hduckimp, hboxes⟩ := h
  unfold Player.startDucking
  simp only [Player.triple_isJumping, Player.triple_isFastFalling, Player.triple_isDucking]
  by_cases hj : s.isJumping = true
  · have hd : s.isDucking = false := by
      by_cases hd : s.isDucking = true
      · exact absurd hj (by simp [(hduckimp hd).1])
      · simpa using hd
    rw [if_pos hj]
    by_cases hf : s.isFastFalling = true
    · rw [if_neg (by simp [hf])]
      refine inv_of_triple _ (Or.inr ⟨by simp, by simp⟩) ?_ ?_ ?_
      · intro _
        exact ⟨by simp [hj], by simp, by simp⟩
      · intro hc
        simp [hd] at hc
      · intro _ _
        have hffs : boxesFF s := by simpa [hd, hf] using hboxes
        obtain ⟨_, hsx, hsy⟩ := hffimp hf
        obtain ⟨p1, p2, p3, p4, p5, p6, p7⟩ := boxesFF_ffPre s hffs
        refine ⟨?_, ?_, ?_, ?_, ?_, ?_, ?_⟩ <;>
          simp [p1, p2, p3, p4, p5, p6, p7, hsx, hsy]
    · have hf2 : s.isFastFalling = false := by simpa using hf
      rw [if_pos (by simp [hf2])]
      refine inv_of_triple _ (Or.inr ⟨by simp, by simp⟩) ?_ ?_ ?_
      · intro _
        exact ⟨by simp [hj], by simp, by simp⟩
      · intro hc
        simp [hd] at hc
      · intro _ _
        have hnorm : boxesNormal (Player.updateTripleCollisionBoxes
            { s with duckPressed := true, targetSizeX := duckSizeX,
                     targetSizeY := duckSizeY }) :=
          Player.triple_of_normal _ (by simpa using hd) (by simpa using hf2)
        exact boxesNormal_ffPre _ hnorm
  · have hj2 : s.isJumping = false := by simpa using hj
    have hf : s.isFastFalling = false := by
      by_cases hf : s.isFastFalling = true
      · exact absurd (hffimp hf).1 (by simp [hj2])
      · simpa using hf
    rw [if_neg (by simp [hj2])]
    by_cases hd : s.isDucking = true
    · rw [if_neg (by simp [hd])]
      refine inv_of_triple _ (Or.inr ⟨by simp, by simp⟩) ?_ ?_ ?_
      · intro hc
        simp [hf] at hc
      · intro _
        exact ⟨by simp [hj2], by simp [hf]⟩
      · intro hc
        simp [hd] at hc
    · have hd2 : s.isDucking = false := by simpa using hd
      rw [if_pos (by simp [hd2])]
      refine inv_of_triple _ (Or.inr ⟨by simp, by simp⟩) ?_ ?_ ?_
      · intro hc
        simp [hf] at hc
      · intro _
        exact ⟨by simp [hj2], by simp [hf]⟩
      · intro hc
        simp at hc

lemma inv_duckPressed (s : PlayerState) (b : Bool) (h : playerInv s) :
    playerInv { s with duckPressed := b } := h

lemma inv_stopDucking (s : PlayerState) (h : playerInv s) :
    playerInv (Player.stopDucking s) := by
  obtain ⟨hsize, hbb, hffimp, hduckimp, hboxes⟩ := id h
  simp only [Player.stopDucking]
  split_ifs with h1 h2 h3
  · have hj : s.isJumping = true := h1
    refine inv_of_triple _ (Or.inl ⟨rfl, rfl⟩) ?_ ?_ ?_
    · intro hc
      simp at hc
    · intro hc
      have hc2 : s.isDucking = true := hc
      exact absurd hj (by simp [(hduckimp hc2).1])
    · intro _ hc
      simp at hc
  · exact inv_duckPressed s false h
  · have hd : s.isDucking = true := h3
    have hf : s.isFastFalling = false := (hduckimp hd).2
    refine inv_of_triple _ (Or.inl ⟨rfl, rfl⟩) ?_ ?_ ?_
    · intro hc
      have hc2 : s.isFastFalling = true := hc
      simp [hf] at hc2
    · intro hc
      simp at hc
    · intro _ hc
      have hc2 : s.isFastFalling = true := hc
      simp [hf] at hc2
  · exact inv_duckPressed s false h

lemma inv_update (dt : ℚ) (s : PlayerState) (h : playerInv s) :
    playerInv (Player.update dt s) := by
  obtain ⟨hsize, hbb, hffimp, hduckimp, hboxes⟩ := id h
  simp only [Player.update]
  by_cases hj : s.isJumping = true
  · have hd : s.isDucking = false := by
      by_cases hd : s.isDucking = true
      · exact absurd hj (by simp [(hduckimp hd).1])
      · simpa using hd
    rw [if_pos hj]
    split_ifs with hland hdp hjj1 hjj2 hjj3
    · refine inv_of_triple _ (Or.inr ⟨by simp, by simp⟩) ?_ ?_ ?_
      · intro hc
        simp at hc
      · intro _
        exact ⟨by simp, by simp⟩
      · intro _ hc
        simp at hc
    · simp at hjj1
    · refine inv_of_triple _ (Or.inl ⟨by simp, by simp⟩) ?_ ?_ ?_
      · intro hc
        simp at hc
      · intro hc
        simp at hc
      · intro _ hc
        simp at hc
    · simp at hjj2
    · simp [hj] at hjj3
    · refine inv_of_triple _ (by simpa using hsize) ?_ ?_ ?_
      · intro hc
        have hc2 : s.isFastFalling = true := hc
        exact ⟨by simpa using hj, by simpa using (hffimp hc2).2.1,
          by simpa using (hffimp hc2).2.2⟩
      · intro hc
        have hc2 : s.isDucking = true := hc
        simp [hd] at hc2
      · intro _ hc
        have hc2 : s.isFastFalling = true := hc
        have hffs : boxesFF s := by simpa [hd, hc2] using hboxes
        exact boxesFF_ffPre s hffs
  · have hj2 : s.isJumping = false := by simpa using hj
    have hf : s.isFastFalling = false := by
      by_cases hf : s.isFastFalling = true
      · exact absurd (hffimp hf).1 (by simp [hj2])
      · simpa using hf
    rw [if_neg hj]
    rw [if_pos (by simp [hj2] : (!s.isJumping) = true)]
    refine inv_of_triple _ (by simpa using hsize) ?_ ?_ ?_
    · intro hc
      have hc2 : s.isFastFalling = true := by simpa using hc
      simp [hf] at hc2
    · intro hc
      have hc2 : s.isDucking = true := by simpa using hc
      exact ⟨by simpa using (hduckimp hc2).1, by simpa using (hduckimp hc2).2⟩
    · intro _ hc
      have hc2 : s.isFastFalling = true := by simpa using hc
      simp [hf] at hc2

lemma inv_reset (s : PlayerState) : playerInv (Player.reset s) := by
  unfold Player.reset
  exact inv_of_triple _ (Or.inl ⟨rfl, rfl⟩) (by intro hc; simp at hc)
    (by intro hc; simp at hc) (by intro _ hc; simp at hc)

/-- Every reachable player state satisfies the invariant. -/
lemma preach_inv {s : PlayerState} (hs : PReach s) : playerInv s := by
  induction hs with
  | init x y => exact inv_construct x y
  | jump _ ih => exact inv_jump _ ih
  | duck _ ih => exact inv_startDucking _ ih
  | stopDuck _ ih => exact inv_stopDucking _ ih
  | step dt _ ih => exact inv_update dt _ ih
  | reset _ ih => exact inv_reset _

/-- Containment of a rectangle in the axis-aligned box of position
(px, py) and size (tx, ty). -/
def rectInBox (r : Rect) (px py tx ty : ℚ) : Prop :=
  px ≤ r.left ∧ r.left + r.width ≤ px + tx ∧ py ≤ r.top ∧ r.top + r.height ≤ py + ty

/-- The three collision regions lie inside the bounding box of the current
position and target size. -/
def regionsContained (s : PlayerState) : Prop :=
  rectInBox s.headBox s.posX s.posY s.targetSizeX s.targetSizeY ∧
  rectInBox s.bodyBox s.posX s.posY s.targetSizeX s.targetSizeY ∧
  rectInBox s.tailBox s.posX s.posY s.targetSizeX s.targetSizeY

lemma contained_normal (px py tx ty : ℚ) (hx : 0 ≤ tx) (hy : 0 ≤ ty) :
    rectInBox (normalHeadBox px py tx ty) px py tx ty ∧
    rectInBox (normalBodyBox px py tx ty) px py tx ty ∧
    rectInBox (normalTailBox px py tx ty) px py tx ty := by
  refine ⟨⟨?_, ?_, ?_, ?_⟩, ⟨?_, ?_, ?_, ?_⟩, ⟨?_, ?_, ?_, ?_⟩⟩ <;>
    simp only [normalHeadBox, normalBodyBox, normalTailBox, headWidthRatio,
      headHeightRatio, bodyWidthRatio, bodyHeightRatio, tailWidthRatio,
      tailHeightRatio] <;> ring_nf <;> linarith

lemma contained_duck (px py tx ty : ℚ) (hx : 0 ≤ tx) (hy : 0 ≤ ty) :
    rectInBox (duckHeadBox px py tx ty) px py tx ty ∧
    rectInBox (duckBodyBox px py tx ty) px py tx ty ∧
    rectInBox (duckTailBox px py tx ty) px py tx ty := by
  refine ⟨⟨?_, ?_, ?_, ?_⟩, ⟨?_, ?_, ?_, ?_⟩, ⟨?_, ?_, ?_, ?_⟩⟩ <;>
    simp only [duckHeadBox, duckBodyBox, duckTailBox, headWidthRatio,
      headHeightRatio, bodyWidthRatio, bodyHeightRatio, tailWidthRatio,
      tailHeightRatio] <;> ring_nf <;> linarith

lemma contained_ff (px py : ℚ) :
    rectInBox (ffHeadBox px py duckSizeX duckSizeY) px py duckSizeX duckSizeY ∧
    rectInBox (ffBodyBox px py duckSizeX duckSizeY) px py duckSizeX duckSizeY ∧
    rectInBox (ffTailBox px py duckSizeX duckSizeY) px py duckSizeX duckSizeY := by
  refine ⟨⟨?_, ?_, ?_, ?_⟩, ⟨?_, ?_, ?_, ?_⟩, ⟨?_, ?_, ?_, ?_⟩⟩ <;>
    simp only [ffHeadBox, ffBodyBox, ffTailBox, headWidthRatio,
      headHeightRatio, bodyWidthRatio, bodyHeightRatio, tailWidthRatio,
      tailHeightRatio, duckSizeX, duckSizeY, defaultSizeX] <;> ring_nf <;> linarith

/-- C2: for every reachable player state (running, jumping, ducking or
fast falling) after any operation (construction, jump, startDucking,
stopDucking, update, reset), each of the head, body and tail rectangles is
fully contained within the bounding box from the player's current position
to position plus target size. -/
theorem player_regions_contained (s : PlayerState) (hs : PReach s) :
    regionsContained s := by
  obtain ⟨hsize, hbb, hffimp, hduckimp, hboxes⟩ := preach_inv hs
  have hx : 0 ≤ s.targetSizeX := by
    rcases hsize with ⟨h1, _⟩ | ⟨h1, _⟩ <;> rw [h1] <;>
      norm_num [defaultSizeX, duckSizeX]
  have hy : 0 ≤ s.targetSizeY := by
    rcases hsize with ⟨_, h1⟩ | ⟨_, h1⟩ <;> rw [h1] <;>
      norm_num [defaultSizeY, duckSizeY]
  by_cases hdk : s.isDucking = true
  · have hb : boxesDuck s := by simpa [hdk] using hboxes
    obtain ⟨e1, e2, e3⟩ := hb
    have hc := contained_duck s.posX s.posY s.targetSizeX s.targetSizeY hx hy
    exact ⟨e1 ▸ hc.1, e2 ▸ hc.2.1, e3 ▸ hc.2.2⟩
  · have hdk2 : s.isDucking = false := by simpa using hdk
    by_cases hff : s.isFastFalling = true
    · have hb : boxesFF s := by simpa [hdk2, hff] using hboxes
      obtain ⟨_, hsx, hsy⟩ := hffimp hff
      obtain ⟨e1, e2, e3⟩ := hb
      rw [hsx, hsy] at e1 e2 e3
      have hc := contained_ff s.posX s.posY
      refine ⟨?_, ?_, ?_⟩ <;> rw [hsx, hsy]
      · exact e1 ▸ hc.1
      · exact e2 ▸ hc.2.1
      · exact e3 ▸ hc.2.2
    · have hff2 : s.isFastFalling = false := by simpa using hff
      have hb : boxesNormal s := by simpa [hdk2, hff2] using hboxes
      obtain ⟨e1, e2, e3⟩ := hb
      have hc := contained_normal s.posX s.posY s.targetSizeX s.targetSizeY hx hy
      exact ⟨e1 ▸ hc.1, e2 ▸ hc.2.1, e3 ▸ hc.2.2⟩

/-- Witness for C2: containment holds at the concrete reachable state
reached by constructing a player at (100, 400) and starting a duck. -/
theorem player_regions_contained_witness :
    regionsContained (Player.startDucking (Player.construct 100 400)) :=
  player_regions_contained _ (PReach.duck (PReach.init 100 400))

/-- C10: for every reachable player state, the legacy bounding box
returned by getShape() has exactly the position and size of the body
collision region, and is strictly smaller than the sprite's target size
in both dimensions, so it never covers the whole sprite. -/
theorem legacy_shape_is_body_box (s : PlayerState) (hs : PReach s) :
    s.boundingBox = s.bodyBox ∧ s.boundingBox.width < s.targetSizeX ∧
      s.boundingBox.height < s.targetSizeY := by
  obtain ⟨hsize, hbb, hffimp, hduckimp, hboxes⟩ := preach_inv hs
  have hx : 0 < s.targetSizeX := by
    rcases hsize with ⟨h1, _⟩ | ⟨h1, _⟩ <;> rw [h1] <;>
      norm_num [defaultSizeX, duckSizeX]
  have hy : 0 < s.targetSizeY := by
    rcases hsize with ⟨_, h1⟩ | ⟨_, h1⟩ <;> rw [h1] <;>
      norm_num [defaultSizeY, duckSizeY]
  refine ⟨hbb, ?_, ?_⟩ <;> rw [hbb]
  · by_cases hdk : s.isDucking = true
    · have hb : boxesDuck s := by simpa [hdk] using hboxes
      rw [hb.2.1]
      simp only [duckBodyBox, bodyWidthRatio]
      linarith
    · have hdk2 : s.isDucking = false := by simpa using hdk
      by_cases hff : s.isFastFalling = true
      · have hb : boxesFF s := by simpa [hdk2, hff] using hboxes
        rw [hb.2.1]
        simp only [ffBodyBox, bodyWidthRatio]
        linarith
      · have hff2 : s.isFastFalling = false := by simpa using hff
        have hb : boxesNormal s := by simpa [hdk2, hff2] using hboxes
        rw [hb.2.1]
        simp only [normalBodyBox, bodyWidthRatio]
        linarith
  · by_cases hdk : s.isDucking = true
    · have hb : boxesDuck s := by simpa [hdk] using hboxes
      rw [hb.2.1]
      simp only [duckBodyBox, bodyHeightRatio]
      linarith
    · have hdk2 : s.isDucking = false := by simpa using hdk
      by_cases hff : s.isFastFalling = true
      · have hb : boxesFF s := by simpa [hdk2, hff] using hboxes
        rw [hb.2.1]
        simp only [ffBodyBox, bodyHeightRatio]
        linarith
      · have hff2 : s.isFastFalling = false := by simpa using hff
        have hb : boxesNormal s := by simpa [hdk2, hff2] using hboxes
        rw [hb.2.1]
        simp only [normalBodyBox, bodyHeightRatio]
        linarith

/-- Witness for C10: the legacy box equals the body box at the concrete
reachable state after one update step from construction. -/
theorem legacy_shape_is_body_box_witness :
    (Player.update (1 / 60) (Player.construct 100 400)).boundingBox =
        (Player.update (1 / 60) (Player.construct 100 400)).bodyBox ∧
      (Player.update (1 / 60) (Player.construct 100 400)).boundingBox.width <
        (Player.update (1 / 60) (Player.construct 100 400)).targetSizeX ∧
      (Player.update (1 / 60) (Player.construct 100 400)).boundingBox.height <
        (Player.update (1 / 60) (Player.construct 100 400)).targetSizeY :=
  legacy_shape_is_body_box _ (PReach.step (1 / 60) (PReach.init 100 400))

/-- C3: from any airborne state that is still ascending and not yet fast
falling, startDucking leaves the vertical velocity at the small positive
constant 0.3, that is downward-or-zero in screen coordinates, before the
next update call. -/
theorem startDucking_cuts_jump (s : PlayerState) (hj : s.isJumping = true)
    (hv : s.velocityY < 0) (hf : s.isFastFalling = false) :
    (Player.startDucking s).velocityY = 3 / 10 ∧
      0 ≤ (Player.startDucking s).velocityY := by
  have hmain : (Player.startDucking s).velocityY = 3 / 10 := by
    simp only [Player.startDucking, Player.triple_isJumping, Player.triple_isFastFalling,
      Player.triple_isDucking, Player.triple_velocityY]
    rw [if_pos hj, if_pos (by simp [hf])]
    simp [hv]
  exact ⟨hmain, by rw [hmain]; norm_num⟩

/-- Witness for C3: cutting the jump right after jumping from the ground. -/
theorem startDucking_cuts_jump_witness :
    (Player.startDucking (Player.jump (Player.construct 100 400))).velocityY = 3 / 10 ∧
      0 ≤ (Player.startDucking (Player.jump (Player.construct 100 400))).velocityY :=
  startDucking_cuts_jump _ rfl (by decide) rfl

/-! Obstacles (Obstacle.cpp): spawn type, sprite size, inset collision
rectangle, horizontal movement and off-screen culling. -/

/-- Obstacle::ObstacleType. -/
inductive ObstacleType where
  | CACTUS_SMALL
  | CACTUS_MID
  | CACTUS_LARGE
  | CACTUS_CLUSTER
deriving Repr, DecidableEq

/-- Obstacle::getSizeForType: the sprite size of each variant. -/
def getSizeForType : ObstacleType → ℚ × ℚ
  | ObstacleType.CACTUS_SMALL => (15, 35)
  | ObstacleType.CACTUS_MID => (25, 48)
  | ObstacleType.CACTUS_LARGE => (32, 68)
  | ObstacleType.CACTUS_CLUSTER => (40, 35)

/-- Obstacle::getCollisionSizeForType: the deliberately narrower collision
size of each variant. -/
def getCollisionSizeForType : ObstacleType → ℚ × ℚ
  | ObstacleType.CACTUS_SMALL => (1, 35)
  | ObstacleType.CACTUS_MID => (3 / 2, 48)
  | ObstacleType.CACTUS_LARGE => (2, 68)
  | ObstacleType.CACTUS_CLUSTER => (32, 35)

/-- An obstacle: position, horizontal velocity and type.  The stored
bounding box is kept synchronised with these on construction and on every
update, so it is modelled as the derived rectangle obstacleShape. -/
structure Obstacle where
  posX : ℚ
  posY : ℚ
  velocityX : ℚ
  obstacleType : ObstacleType
deriving Repr, DecidableEq

/-- Obstacle::updateBoundingBox: the collision rectangle is the collision
size centred inside the sprite bounds; Obstacle::getShape returns it. -/
def obstacleShape (o : Obstacle) : Rect :=
  { left := o.posX + ((getSizeForType o.obstacleType).1 -
      (getCollisionSizeForType o.obstacleType).1) / 2
    top := o.posY + ((getSizeForType o.obstacleType).2 -
      (getCollisionSizeForType o.obstacleType).2) / 2
    width := (getCollisionSizeForType o.obstacleType).1
    height := (getCollisionSizeForType o.obstacleType).2 }

/-- Obstacle::isOffScreen: the right edge of the sprite is strictly left
of the fixed -50 culling threshold. -/
def obstacleIsOffScreen (o : Obstacle) : Bool :=
  decide (o.posX + (getSizeForType o.obstacleType).1 < -50)

/-- Obstacle::update(deltaTime): move left by velocity times dt. -/
def obstacleUpdate (dt : ℚ) (o : Obstacle) : Obstacle :=
  { o with posX := o.posX - o.velocityX * dt }

/-! The collision evaluator entry points over players and obstacles
(Collisionmanager.cpp). -/

/-- CollisionManager::checkPlayerSingleObstacleTriple: the head, body and
tail boxes are each tested against the obstacle's single collision
rectangle; on any hit the classification and, with priority body over
head over tail, the detailed contact fields are filled in. -/
noncomputable def checkPlayerSingleObstacleTriple (p : PlayerState) (o : Obstacle) :
    CollisionInfo :=
  let obstacleBox := obstacleShape o
  let headHit := checkRectangleCollision p.headBox obstacleBox
  let bodyHit := checkRectangleCollision p.bodyBox obstacleBox
  let tailHit := checkRectangleCollision p.tailBox obstacleBox
  let hasCollision := headHit || bodyHit || tailHit
  if hasCollision then
    let base :=
      { defaultCollisionInfo with
          headHit := headHit, bodyHit := bodyHit, tailHit := tailHit,
          hasCollision := hasCollision,
          collisionType := determineCollisionType headHit bodyHit tailHit }
    if bodyHit then
      let detailedInfo := getDetailedCollision p.bodyBox obstacleBox
      { base with collisionPoint := detailedInfo.collisionPoint,
                  normal := detailedInfo.normal,
                  penetrationDepth := detailedInfo.penetrationDepth }
    else if headHit then
      let detailedInfo := getDetailedCollision p.headBox obstacleBox
      { base with collisionPoint := detailedInfo.collisionPoint,
                  normal := detailedInfo.normal,
                  penetrationDepth := detailedInfo.penetrationDepth }
    else if tailHit then
      let detailedInfo := getDetailedCollision p.tailBox obstacleBox
      { base with collisionPoint := detailedInfo.collisionPoint,
                  normal := detailedInfo.normal,
                  penetrationDepth := detailedInfo.penetrationDepth }
    else base
  else
    { defaultCollisionInfo with
        headHit := headHit, bodyHit := bodyHit, tailHit := tailHit,
        hasCollision := hasCollision }

/-- CollisionManager::checkPlayerObstacleCollisionTriple: short-circuit on
the first obstacle whose triple evaluation reports any hit. -/
noncomputable def checkPlayerObstacleCollisionTriple (p : PlayerState)
    (obstacles : List Obstacle) : Bool :=
  obstacles.any fun o => (checkPlayerSingleObstacleTriple p o).hasCollision

/-- CollisionManager::checkPlayerSingleObstacle (legacy): test the
player's legacy single shape against the obstacle's shape. -/
def checkPlayerSingleObstacle (p : PlayerState) (o : Obstacle) : Bool :=
  checkRectangleCollision p.boundingBox (obstacleShape o)

/-- CollisionManager::checkPlayerObstacleCollision (legacy): short-circuit
on the first obstacle colliding with the player's legacy shape. -/
def checkPlayerObstacleCollision (p : PlayerState) (obstacles : List Obstacle) : Bool :=
  obstacles.any fun o => checkPlayerSingleObstacle p o

/-! Obstacle lifecycle manager, difficulty and pattern selector
(ObstacleManager.cpp).  The mt19937 draws are passed in explicitly: one
draw for the weighted selection, one for the fallback coin flip, one for
the spawn-timer jitter, and one per spawned obstacle for the position
jitter.  The unordered pattern map is modelled as a total function (all
eight patterns are initialised), and the unlock scan iterates the
patterns in declaration order. -/

/-- ObstacleManager::ObstaclePattern. -/
inductive ObstaclePattern where
  | SINGLE_SMALL
  | SINGLE_MID
  | SINGLE_LARGE
  | DOUBLE_CLOSE
  | TRIPLE_CLUSTER
  | MIXED_HEIGHTS
  | WIDE_GAP
  | TIGHT_SEQUENCE
deriving Repr, DecidableEq

/-- ObstacleManager::PatternDefinition. -/
structure PatternDefinition where
  obstacleTypes : List ObstacleType
  relativePositions : List ℚ
  patternDifficulty : ℚ
  minGameTime : ℚ
  patternName : String
deriving Repr, DecidableEq

/-- ObstacleManager::initializePatterns: the fixed pattern catalog, as a
total function on the pattern enum. -/
def patternDefinitions : ObstaclePattern → PatternDefinition
  | ObstaclePattern.SINGLE_SMALL =>
    { obstacleTypes := [ObstacleType.CACTUS_SMALL], relativePositions := [0],
      patternDifficulty := 1 / 10, minGameTime := 0,
      patternName := "Single Small Cactus" }
  | ObstaclePattern.SINGLE_MID =>
    { obstacleTypes := [ObstacleType.CACTUS_MID], relativePositions := [0],
      patternDifficulty := 1 / 4, minGameTime := 3,
      patternName := "Single Medium Cactus" }
  | ObstaclePattern.SINGLE_LARGE =>
    { obstacleTypes := [ObstacleType.CACTUS_LARGE], relativePositions := [0],
      patternDifficulty := 2 / 5, minGameTime := 8,
      patternName := "Single Large Cactus" }
  | ObstaclePattern.DOUBLE_CLOSE =>
    { obstacleTypes := [ObstacleType.CACTUS_SMALL, ObstacleType.CACTUS_SMALL],
      relativePositions := [0, 30],
      patternDifficulty := 13 / 20, minGameTime := 15,
      patternName := "Double Close Cacti" }
  | ObstaclePattern.TRIPLE_CLUSTER =>
    { obstacleTypes := [ObstacleType.CACTUS_SMALL, ObstacleType.CACTUS_MID,
        ObstacleType.CACTUS_SMALL],
      relativePositions := [0, 30, 60],
      patternDifficulty := 9 / 10, minGameTime := 20,
      patternName := "Triple Cluster" }
  | ObstaclePattern.MIXED_HEIGHTS =>
    { obstacleTypes := [ObstacleType.CACTUS_LARGE, ObstacleType.CACTUS_SMALL],
      relativePositions := [0, 40],
      patternDifficulty := 1 / 2, minGameTime := 12,
      patternName := "Mixed Heights" }
  | ObstaclePattern.WIDE_GAP =>
    { obstacleTypes := [ObstacleType.CACTUS_SMALL, ObstacleType.CACTUS_SMALL],
      relativePositions := [0, 180],
      patternDifficulty := 1 / 5, minGameTime := 0,
      patternName := "Wide Gap" }
  | ObstaclePattern.TIGHT_SEQUENCE =>
    { obstacleTypes := [ObstacleType.CACTUS_SMALL, ObstacleType.CACTUS_MID,
        ObstacleType.CACTUS_LARGE],
      relativePositions := [0, 45, 85],
      patternDifficulty := 1, minGameTime := 25,
      patternName := "Tight Sequence" }

/-- All eight patterns in declaration order. -/
def allPatterns : List ObstaclePattern :=
  [ObstaclePattern.SINGLE_SMALL, ObstaclePattern.SINGLE_MID,
   ObstaclePattern.SINGLE_LARGE, ObstaclePattern.DOUBLE_CLOSE,
   ObstaclePattern.TRIPLE_CLUSTER, ObstaclePattern.MIXED_HEIGHTS,
   ObstaclePattern.WIDE_GAP, ObstaclePattern.TIGHT_SEQUENCE]

/-! Manager constants. -/

/-- Initial spawn interval (seconds). -/
def INITIAL_SPAWN_INTERVAL : ℚ := 2

/-- Minimum spawn interval. -/
def MIN_SPAWN_INTERVAL : ℚ := 4 / 5

/-- Initial obstacle speed (pixels per second). -/
def INITIAL_OBSTACLE_SPEED : ℚ := 200

/-- Maximum obstacle speed. -/
def MAX_OBSTACLE_SPEED : ℚ := 400

/-- Spawn x position. -/
def SPAWN_POSITION_X : ℚ := 800

/-- Spawn y position. -/
def SPAWN_POSITION_Y : ℚ := 849 / 2

/-- Speed increase per second of game time. -/
def SPEED_INCREASE_RATE : ℚ := 5

/-- Interval decrease per second of game time. -/
def INTERVAL_DECREASE_RATE : ℚ := 3 / 100

/-- Cooldown between very complex patterns. -/
def PATTERN_COOLDOWN_TIME : ℚ := 4

/-- Difficulty progression rate. -/
def DIFFICULTY_INCREASE_RATE : ℚ := 1 / 25

/-- Maximum consecutive hard patterns. -/
def MAX_CONSECUTIVE_HARD : ℕ := 2

/-- The ObstacleManager state. -/
structure MgrState where
  obstacles : List Obstacle
  spawnTimer : ℚ
  obstacleInterval : ℚ
  obstacleSpeed : ℚ
  availablePatterns : List ObstaclePattern
  lastPattern : ObstaclePattern
  consecutiveHardPatterns : ℕ
  currentDifficulty : ℚ
  patternCooldownTimer : ℚ
deriving Repr, DecidableEq

namespace ObstacleManager

/-- The ObstacleManager constructor. -/
def construct : MgrState :=
  { obstacles := []
    spawnTimer := 0
    obstacleInterval := INITIAL_SPAWN_INTERVAL
    obstacleSpeed := INITIAL_OBSTACLE_SPEED
    availablePatterns := []
    lastPattern := ObstaclePattern.SINGLE_SMALL
    consecutiveHardPatterns := 0
    currentDifficulty := 0
    patternCooldownTimer := 0 }

/-- ObstacleManager::clear. -/
def clear (s : MgrState) : MgrState :=
  { s with obstacles := [], spawnTimer := 0,
           obstacleInterval := INITIAL_SPAWN_INTERVAL,
           obstacleSpeed := INITIAL_OBSTACLE_SPEED,
           currentDifficulty := 0, consecutiveHardPatterns := 0,
           patternCooldownTimer := 0,
           lastPattern := ObstaclePattern.SINGLE_SMALL,
           availablePatterns := [] }

/-- ObstacleManager::updateDifficulty(gameTime): speed ramps up and is
capped at the maximum, the spawn interval ramps down and is floored at
the minimum, and the pattern difficulty is min(1, gameTime * rate). -/
def updateDifficulty (gameTime : ℚ) (s : MgrState) : MgrState :=
  let speed0 := INITIAL_OBSTACLE_SPEED + gameTime * SPEED_INCREASE_RATE
  let speed := if speed0 > MAX_OBSTACLE_SPEED then MAX_OBSTACLE_SPEED else speed0
  let interval0 := INITIAL_SPAWN_INTERVAL - gameTime * INTERVAL_DECREASE_RATE
  let interval := if interval0 < MIN_SPAWN_INTERVAL then MIN_SPAWN_INTERVAL else interval0
  { s with obstacleSpeed := speed, obstacleInterval := interval,
           currentDifficulty := min 1 (gameTime * DIFFICULTY_INCREASE_RATE) }

/-- ObstacleManager::updateAvailablePatterns(gameTime): the patterns whose
unlock time has passed, with the easiest single obstacle as the guaranteed
fallback when nothing is unlocked. -/
def updateAvailablePatterns (gameTime : ℚ) (s : MgrState) : MgrState :=
  let avail := allPatterns.filter fun p => decide ((patternDefinitions p).minGameTime ≤ gameTime)
  { s with availablePatterns := if avail = [] then [ObstaclePattern.SINGLE_SMALL] else avail }

/-- ObstacleManager::shouldAvoidPattern: a hard pattern (difficulty above
0.6) is avoided after too many consecutive hard patterns, and a very
complex pattern (difficulty above 0.8) is avoided while the cooldown has
not expired. -/
def shouldAvoidPattern (s : MgrState) (p : ObstaclePattern) : Bool :=
  (decide ((patternDefinitions p).patternDifficulty > 3 / 5) &&
    decide (s.consecutiveHardPatterns ≥ MAX_CONSECUTIVE_HARD)) ||
  (decide ((patternDefinitions p).patternDifficulty > 4 / 5) &&
    decide (s.patternCooldownTimer < PATTERN_COOLDOWN_TIME))

/-- ObstacleManager::getPatternWeight: reward proximity of the pattern
difficulty to the current difficulty, and damp avoided patterns. -/
def getPatternWeight (s : MgrState) (p : ObstaclePattern) (currentDifficulty : ℚ) : ℚ :=
  let difficultyMatch := 1 - |(patternDefinitions p).patternDifficulty - currentDifficulty|
  let weight := 1 * (3 / 10 + 7 / 10 * difficultyMatch)
  if shouldAvoidPattern s p then weight * (1 / 10) else weight

/-- The cumulative-weight scan of weightedPatternSelection: the first
pattern at which the accumulated weight reaches the random value. -/
def weightedScan : List (ObstaclePattern × ℚ) → ℚ → ℚ → Option ObstaclePattern
  | [], _, _ => none
  | (p, w) :: rest, r, acc =>
    if r ≤ acc + w then some p else weightedScan rest r (acc + w)

/-- ObstacleManager::weightedPatternSelection: weighted random draw over
the available patterns, falling back to the last available pattern when
the scan does not return. -/
def weightedPatternSelection (s : MgrState) (r1 : ℚ) : ObstaclePattern :=
  if s.availablePatterns = [] then ObstaclePattern.SINGLE_SMALL
  else
    let weights := s.availablePatterns.map fun p => getPatternWeight s p s.currentDifficulty
    let totalWeight := weights.sum
    let randomValue := r1 * totalWeight
    match weightedScan (s.availablePatterns.zip weights) randomValue 0 with
    | some p => p
    | none => s.availablePatterns.getLastD ObstaclePattern.SINGLE_SMALL

/-- ObstacleManager::selectPattern: when no pattern is available the
easiest single obstacle is returned directly; otherwise the weighted
selection runs, a guarded-out pick falls back deterministically by
difficulty band, and the consecutive-hard counter is incremented on a
pick with difficulty above 0.6 and reset to zero otherwise.  r1 feeds the
weighted draw and r2 the fallback coin flip. -/
def selectPattern (s : MgrState) (r1 r2 : ℚ) : ObstaclePattern × MgrState :=
  if s.availablePatterns = [] then (ObstaclePattern.SINGLE_SMALL, s)
  else
    let sel0 := weightedPatternSelection s r1
    let sel :=
      if shouldAvoidPattern s sel0 then
        if s.currentDifficulty < 3 / 10 then ObstaclePattern.SINGLE_SMALL
        else if s.currentDifficulty < 3 / 5 then
          (if r2 < 1 / 2 then ObstaclePattern.SINGLE_SMALL else ObstaclePattern.SINGLE_MID)
        else ObstaclePattern.WIDE_GAP
      else sel0
    let cnt := if (patternDefinitions sel).patternDifficulty > 3 / 5 then
      s.consecutiveHardPatterns + 1 else 0
    (sel, { s with consecutiveHardPatterns := cnt, lastPattern := sel })

/-- ObstacleManager::spawnSingleObstacle: one obstacle at the spawn
position plus the offset, with the type-specific vertical adjustment,
sharing the manager's current speed. -/
def spawnSingleObstacle (otype : ObstacleType) (xOffset : ℚ) (s : MgrState) : MgrState :=
  let offsetY : ℚ :=
    if otype = ObstacleType.CACTUS_MID then -13
    else if otype = ObstacleType.CACTUS_LARGE then -33
    else 0
  { s with obstacles := s.obstacles ++
      [{ posX := SPAWN_POSITION_X + xOffset, posY := SPAWN_POSITION_Y + offsetY,
         velocityX := s.obstacleSpeed, obstacleType := otype }] }

/-- ObstacleManager::spawnPattern: spawn each obstacle of the pattern at
its relative offset plus a per-obstacle jitter draw, then reset the
cooldown timer for complex patterns. -/
def spawnPattern (pat : ObstaclePattern) (rj : ℕ → ℚ) (s : MgrState) : MgrState :=
  let d := patternDefinitions pat
  let s1 := (List.range d.obstacleTypes.length).foldl
    (fun acc i =>
      spawnSingleObstacle (d.obstacleTypes.getD i ObstacleType.CACTUS_SMALL)
        (d.relativePositions.getD i 0 + rj i) acc) s
  if d.patternDifficulty > 3 / 5 then { s1 with patternCooldownTimer := 0 } else s1

/-- ObstacleManager::updateExistingObstacles: propagate the current speed
to every obstacle and advance each to the left. -/
def updateExistingObstacles (dt : ℚ) (s : MgrState) : MgrState :=
  { s with obstacles := s.obstacles.map fun o =>
      obstacleUpdate dt { o with velocityX := s.obstacleSpeed } }

/-- ObstacleManager::removeOffScreenObstacles: the erase-remove idiom,
keeping exactly the obstacles that are not off screen, in order. -/
def removeOffScreenObstacles (s : MgrState) : MgrState :=
  { s with obstacles := s.obstacles.filter fun o => !obstacleIsOffScreen o }

/-- ObstacleManager::update up to but not including the final off-screen
removal: difficulty and unlock refresh, cooldown accumulation, movement,
and the timed pattern spawn (r1, r2 feed selectPattern, rTimer the timer
jitter, rj the per-obstacle position jitters). -/
def updatePreRemoval (dt gameTime r1 r2 rTimer : ℚ) (rj : ℕ → ℚ) (s : MgrState) :
    MgrState :=
  let s1 := updateDifficulty gameTime s
  let s2 := updateAvailablePatterns gameTime s1
  let s3 := { s2 with patternCooldownTimer := s2.patternCooldownTimer + dt }
  let s4 := updateExistingObstacles dt s3
  let s5 := { s4 with spawnTimer := s4.spawnTimer + dt }
  if s5.spawnTimer ≥ s5.obstacleInterval then
    let sel := selectPattern s5 r1 r2
    let s6 := spawnPattern sel.1 rj sel.2
    { s6 with spawnTimer := rTimer }
  else s5

/-- ObstacleManager::update(deltaTime, gameTime). -/
def update (dt gameTime r1 r2 rTimer : ℚ) (rj : ℕ → ℚ) (s : MgrState) : MgrState :=
  removeOffScreenObstacles (updatePreRemoval dt gameTime r1 r2 rTimer rj s)

end ObstacleManager

/-- The reachable manager states: the constructor followed by any
sequence of updates and clears. -/
inductive MgrReach : MgrState → Prop
  | init : MgrReach ObstacleManager.construct
  | update {s : MgrState} (dt gameTime r1 r2 rTimer : ℚ) (rj : ℕ → ℚ) :
      MgrReach s → MgrReach (ObstacleManager.update dt gameTime r1 r2 rTimer rj s)
  | clear {s : MgrState} : MgrReach s → MgrReach (ObstacleManager.clear s)

/-! The simulation driver (Game.cpp): the state machine and the per-frame
terminal check. -/

/-- Game::GameState. -/
inductive GameState where
  | MENU
  | PLAYING
  | PAUSED
  | GAME_OVER
  | SETTINGS
deriving Repr, DecidableEq

/-- The driver state the terminal check reads. -/
structure GameModel where
  currentState : GameState
  previousState : GameState
  gameTime : ℚ
  currentScore : ℤ
  highScore : ℤ
  player : PlayerState
  mgr : MgrState

namespace Game

/-- Game::checkCollisions: delegate to the legacy
CollisionManager::checkPlayerObstacleCollision over the player and the
live obstacle list. -/
def checkCollisions (g : GameModel) : Bool :=
  checkPlayerObstacleCollision g.player g.mgr.obstacles

end Game

/-! C8: the rectangle intersection test. -/

/-- Modelled from the spec words for the refinement comparison: the two
projections (normalised for a possibly negative size) strictly overlap on
both axes, that is, share a point interior to both. -/
def specStrictOverlap (a b : Rect) : Prop :=
  (∃ x : ℚ, a.minX < x ∧ x < a.maxX ∧ b.minX < x ∧ x < b.maxX) ∧
  (∃ y : ℚ, a.minY < y ∧ y < a.maxY ∧ b.minY < y ∧ y < b.maxY)

lemma strict_overlap_axis (lo1 hi1 lo2 hi2 : ℚ) :
    max lo1 lo2 < min hi1 hi2 ↔
      ∃ x : ℚ, lo1 < x ∧ x < hi1 ∧ lo2 < x ∧ x < hi2 := by
  constructor
  · intro h
    have hl1 : lo1 ≤ max lo1 lo2 := le_max_left _ _
    have hl2 : lo2 ≤ max lo1 lo2 := le_max_right _ _
    have hh1 : min hi1 hi2 ≤ hi1 := min_le_left _ _
    have hh2 : min hi1 hi2 ≤ hi2 := min_le_right _ _
    refine ⟨(max lo1 lo2 + min hi1 hi2) / 2, by linarith, by linarith, by linarith,
      by linarith⟩
  · rintro ⟨x, h1, h2, h3, h4⟩
    have hm : max lo1 lo2 < x := max_lt h1 h3
    have hm2 : x < min hi1 hi2 := lt_min h2 h4
    linarith

lemma degenerate_axis_no_overlap (lo1 hi1 lo2 hi2 : ℚ) (h : lo1 = hi1) :
    ¬(max lo1 lo2 < min hi1 hi2) := by
  intro hc
  have h1 : lo1 ≤ max lo1 lo2 := le_max_left _ _
  have h2 : min hi1 hi2 ≤ hi1 := min_le_left _ _
  linarith

/-- C8: checkRectangleCollision returns true exactly when the projections
of the two rectangles strictly overlap on both axes; in particular a
rectangle of zero width or zero height never collides with anything, so
rectangles that merely touch along an edge (zero-area overlap) never
count as colliding. -/
theorem rectanglesIntersect_strict (a b : Rect) :
    (checkRectangleCollision a b = true ↔ specStrictOverlap a b) ∧
    (a.width = 0 ∨ a.height = 0 → checkRectangleCollision a b = false) ∧
    (b.width = 0 ∨ b.height = 0 → checkRectangleCollision a b = false) := by
  refine ⟨?_, ?_, ?_⟩
  · unfold checkRectangleCollision specStrictOverlap
    rw [Bool.and_eq_true, decide_eq_true_eq, decide_eq_true_eq]
    exact and_congr (strict_overlap_axis _ _ _ _) (strict_overlap_axis _ _ _ _)
  · intro h
    unfold checkRectangleCollision
    rcases h with h | h
    · have hdeg : a.minX = a.maxX := by simp [Rect.minX, Rect.maxX, h]
      rw [decide_eq_false (degenerate_axis_no_overlap _ _ _ _ hdeg)]
      rfl
    · have hdeg : a.minY = a.maxY := by simp [Rect.minY, Rect.maxY, h]
      rw [decide_eq_false (degenerate_axis_no_overlap _ _ _ _ hdeg)]
      simp
  · intro h
    unfold checkRectangleCollision
    rcases h with h | h
    · have hdeg : b.minX = b.maxX := by simp [Rect.minX, Rect.maxX, h]
      have : ¬(max a.minX b.minX < min a.maxX b.maxX) := by
        intro hc
        have h1 : b.minX ≤ max a.minX b.minX := le_max_right _ _
        have h2 : min a.maxX b.maxX ≤ b.maxX := min_le_right _ _
        linarith [hdeg]
      rw [decide_eq_false this]
      rfl
    · have hdeg : b.minY = b.maxY := by simp [Rect.minY, Rect.maxY, h]
      have : ¬(max a.minY b.minY < min a.maxY b.maxY) := by
        intro hc
        have h1 : b.minY ≤ max a.minY b.minY := le_max_right _ _
        have h2 : min a.maxY b.maxY ≤ b.maxY := min_le_right _ _
        linarith [hdeg]
      rw [decide_eq_false this]
      simp

/-! C9: the degenerate detailed collision. -/

lemma normalizedDir_zero : normalizedDir 0 0 = (0, 0) := by
  unfold normalizedDir
  norm_num

/-- C9: when two intersecting rectangles have coincident centres, the
detailed collision evaluation returns the zero normal vector (no division
happens: the guard on the direction length fails), the contact point is
the centre of the intersection rectangle, and the penetration depth is
the minimum of the overlap width and overlap height. -/
theorem detailed_collision_coincident_centers (a b : Rect)
    (hint : checkRectangleCollision a b = true)
    (hcx : a.left + a.width / 2 = b.left + b.width / 2)
    (hcy : a.top + a.height / 2 = b.top + b.height / 2) :
    (getDetailedCollision a b).normal = (0, 0) ∧
    (getDetailedCollision a b).collisionPoint =
      ((intersectionRect a b).left + (intersectionRect a b).width / 2,
       (intersectionRect a b).top + (intersectionRect a b).height / 2) ∧
    (getDetailedCollision a b).penetrationDepth =
      min (intersectionRect a b).width (intersectionRect a b).height := by
  unfold getDetailedCollision
  rw [if_pos hint]
  refine ⟨?_, rfl, rfl⟩
  have hdx : a.left + a.width / 2 - (b.left + b.width / 2) = 0 := by linarith
  have hdy : a.top + a.height / 2 - (b.top + b.height / 2) = 0 := by linarith
  show normalizedDir (a.left + a.width / 2 - (b.left + b.width / 2))
    (a.top + a.height / 2 - (b.top + b.height / 2)) = (0, 0)
  rw [hdx, hdy, normalizedDir_zero]

/-- Witness for C9: two concrete intersecting rectangles sharing the
centre (2, 1). -/
theorem detailed_collision_coincident_centers_witness :
    (getDetailedCollision { left := 0, top := 0, width := 4, height := 2 }
        { left := 1, top := 1 / 2, width := 2, height := 1 }).normal = (0, 0) ∧
    (getDetailedCollision { left := 0, top := 0, width := 4, height := 2 }
        { left := 1, top := 1 / 2, width := 2, height := 1 }).collisionPoint =
      ((intersectionRect { left := 0, top := 0, width := 4, height := 2 }
          { left := 1, top := 1 / 2, width := 2, height := 1 }).left +
        (intersectionRect { left := 0, top := 0, width := 4, height := 2 }
          { left := 1, top := 1 / 2, width := 2, height := 1 }).width / 2,
       (intersectionRect { left := 0, top := 0, width := 4, height := 2 }
          { left := 1, top := 1 / 2, width := 2, height := 1 }).top +
        (intersectionRect { left := 0, top := 0, width := 4, height := 2 }
          { left := 1, top := 1 / 2, width := 2, height := 1 }).height / 2) ∧
    (getDetailedCollision { left := 0, top := 0, width := 4, height := 2 }
        { left := 1, top := 1 / 2, width := 2, height := 1 }).penetrationDepth =
      min (intersectionRect { left := 0, top := 0, width := 4, height := 2 }
          { left := 1, top := 1 / 2, width := 2, height := 1 }).width
        (intersectionRect { left := 0, top := 0, width := 4, height := 2 }
          { left := 1, top := 1 / 2, width := 2, height := 1 }).height :=
  detailed_collision_coincident_centers _ _
    (by
      simp only [checkRectangleCollision, Rect.minX, Rect.maxX, Rect.minY, Rect.maxY,
        Bool.and_eq_true, decide_eq_true_eq]
      norm_num)
    (by norm_num) (by norm_num)

/-! C5: the difficulty curve. -/

/-- C5: after updateDifficulty at any elapsed time t at least zero, the
difficulty equals min(1, t * rate), the obstacle speed equals
min(maxSpeed, base + t * speedRate) and the spawn interval equals
max(minInterval, base - t * intervalRate), each a pure function of t
only; and at t = 10000 the speed, the interval and the difficulty sit
exactly at their clamps. -/
theorem updateDifficulty_pure_clamped (s : MgrState) (t : ℚ) (ht : 0 ≤ t) :
    ((ObstacleManager.updateDifficulty t s).currentDifficulty =
        min 1 (t * DIFFICULTY_INCREASE_RATE) ∧
      (ObstacleManager.updateDifficulty t s).obstacleSpeed =
        min MAX_OBSTACLE_SPEED (INITIAL_OBSTACLE_SPEED + t * SPEED_INCREASE_RATE) ∧
      (ObstacleManager.updateDifficulty t s).obstacleInterval =
        max MIN_SPAWN_INTERVAL (INITIAL_SPAWN_INTERVAL - t * INTERVAL_DECREASE_RATE)) ∧
    ((ObstacleManager.updateDifficulty 10000 s).obstacleSpeed = MAX_OBSTACLE_SPEED ∧
      (ObstacleManager.updateDifficulty 10000 s).obstacleInterval = MIN_SPAWN_INTERVAL ∧
      (ObstacleManager.updateDifficulty 10000 s).currentDifficulty = 1) := by
  refine ⟨⟨rfl, ?_, ?_⟩, ?_, ?_, ?_⟩
  · simp only [ObstacleManager.updateDifficulty]
    split_ifs with h
    · rw [min_eq_left (by linarith)]
    · rw [min_eq_right (by linarith)]
  · simp only [ObstacleManager.updateDifficulty]
    split_ifs with h
    · rw [max_eq_left (by linarith)]
    · rw [max_eq_right (by linarith)]
  · norm_num [ObstacleManager.updateDifficulty, INITIAL_OBSTACLE_SPEED,
      SPEED_INCREASE_RATE, MAX_OBSTACLE_SPEED]
  · norm_num [ObstacleManager.updateDifficulty, INITIAL_SPAWN_INTERVAL,
      INTERVAL_DECREASE_RATE, MIN_SPAWN_INTERVAL]
  · norm_num [ObstacleManager.updateDifficulty, DIFFICULTY_INCREASE_RATE]

/-- Witness for C5: the clamp identities at the constructed manager and
t = 7. -/
theorem updateDifficulty_pure_clamped_witness :
    ((ObstacleManager.updateDifficulty 7 ObstacleManager.construct).currentDifficulty =
        min 1 (7 * DIFFICULTY_INCREASE_RATE) ∧
      (ObstacleManager.updateDifficulty 7 ObstacleManager.construct).obstacleSpeed =
        min MAX_OBSTACLE_SPEED (INITIAL_OBSTACLE_SPEED + 7 * SPEED_INCREASE_RATE) ∧
      (ObstacleManager.updateDifficulty 7 ObstacleManager.construct).obstacleInterval =
        max MIN_SPAWN_INTERVAL (INITIAL_SPAWN_INTERVAL - 7 * INTERVAL_DECREASE_RATE)) ∧
    ((ObstacleManager.updateDifficulty 10000 ObstacleManager.construct).obstacleSpeed =
        MAX_OBSTACLE_SPEED ∧
      (ObstacleManager.updateDifficulty 10000 ObstacleManager.construct).obstacleInterval =
        MIN_SPAWN_INTERVAL ∧
      (ObstacleManager.updateDifficulty 10000 ObstacleManager.construct).currentDifficulty =
        1) :=
  updateDifficulty_pure_clamped ObstacleManager.construct 7 (by norm_num)

/-! C7: off-screen culling. -/

/-- C7: after every manager update, an obstacle of the pre-removal list
survives into the live list exactly when its right edge (posX plus sprite
width) is not strictly left of the -50 culling threshold, and the
survivors keep their relative order (the live list is a sublist of the
pre-removal list). -/
theorem update_culls_offscreen (s : MgrState) (dt gameTime r1 r2 rTimer : ℚ)
    (rj : ℕ → ℚ) :
    (∀ o : Obstacle,
        o ∈ (ObstacleManager.update dt gameTime r1 r2 rTimer rj s).obstacles ↔
          o ∈ (ObstacleManager.updatePreRemoval dt gameTime r1 r2 rTimer rj s).obstacles ∧
            ¬(o.posX + (getSizeForType o.obstacleType).1 < -50)) ∧
    List.Sublist (ObstacleManager.update dt gameTime r1 r2 rTimer rj s).obstacles
      (ObstacleManager.updatePreRemoval dt gameTime r1 r2 rTimer rj s).obstacles := by
  constructor
  · intro o
    simp [ObstacleManager.update, ObstacleManager.removeOffScreenObstacles,
      List.mem_filter, obstacleIsOffScreen]
  · simp only [ObstacleManager.update, ObstacleManager.removeOffScreenObstacles]
    exact List.filter_sublist _

/-! C6: the triple region evaluation. -/

/-- C6: evaluating a player against an obstacle tests the head, body and
tail boxes independently against the obstacle's single collision
rectangle; the classification is NO_COLLISION on zero hits, the single
region's type on exactly one hit, MULTIPLE_COLLISION on two or more; and
the contact point, normal and penetration depth are those of the detailed
evaluation of the hit box, with priority body over head over tail. -/
theorem triple_evaluation_spec (p : PlayerState) (o : Obstacle) :
    ((checkPlayerSingleObstacleTriple p o).headHit =
        checkRectangleCollision p.headBox (obstacleShape o) ∧
      (checkPlayerSingleObstacleTriple p o).bodyHit =
        checkRectangleCollision p.bodyBox (obstacleShape o) ∧
      (checkPlayerSingleObstacleTriple p o).tailHit =
        checkRectangleCollision p.tailBox (obstacleShape o) ∧
      (checkPlayerSingleObstacleTriple p o).hasCollision =
        ((checkPlayerSingleObstacleTriple p o).headHit ||
          (checkPlayerSingleObstacleTriple p o).bodyHit ||
          (checkPlayerSingleObstacleTriple p o).tailHit)) ∧
    (((checkPlayerSingleObstacleTriple p o).headHit = false ∧
        (checkPlayerSingleObstacleTriple p o).bodyHit = false ∧
        (checkPlayerSingleObstacleTriple p o).tailHit = false →
        (checkPlayerSingleObstacleTriple p o).collisionType =
          CollisionType.NO_COLLISION) ∧
      ((checkPlayerSingleObstacleTriple p o).headHit = true ∧
        (checkPlayerSingleObstacleTriple p o).bodyHit = false ∧
        (checkPlayerSingleObstacleTriple p o).tailHit = false →
        (checkPlayerSingleObstacleTriple p o).collisionType =
          CollisionType.HEAD_COLLISION) ∧
      ((checkPlayerSingleObstacleTriple p o).headHit = false ∧
        (checkPlayerSingleObstacleTriple p o).bodyHit = true ∧
        (checkPlayerSingleObstacleTriple p o).tailHit = false →
        (checkPlayerSingleObstacleTriple p o).collisionType =
          CollisionType.BODY_COLLISION) ∧
      ((checkPlayerSingleObstacleTriple p o).headHit = false ∧
        (checkPlayerSingleObstacleTriple p o).bodyHit = false ∧
        (checkPlayerSingleObstacleTriple p o).tailHit = true →
        (checkPlayerSingleObstacleTriple p o).collisionType =
          CollisionType.TAIL_COLLISION) ∧
      (((checkPlayerSingleObstacleTriple p o).headHit &&
          (checkPlayerSingleObstacleTriple p o).bodyHit ||
        (checkPlayerSingleObstacleTriple p o).headHit &&
          (checkPlayerSingleObstacleTriple p o).tailHit ||
        (checkPlayerSingleObstacleTriple p o).bodyHit &&
          (checkPlayerSingleObstacleTriple p o).tailHit) = true →
        (checkPlayerSingleObstacleTriple p o).collisionType =
          CollisionType.MULTIPLE_COLLISION)) ∧
    (((checkPlayerSingleObstacleTriple p o).bodyHit = true →
        (checkPlayerSingleObstacleTriple p o).collisionPoint =
          (getDetailedCollision p.bodyBox (obstacleShape o)).collisionPoint ∧
        (checkPlayerSingleObstacleTriple p o).normal =
          (getDetailedCollision p.bodyBox (obstacleShape o)).normal ∧
        (checkPlayerSingleObstacleTriple p o).penetrationDepth =
          (getDetailedCollision p.bodyBox (obstacleShape o)).penetrationDepth) ∧
      ((checkPlayerSingleObstacleTriple p o).bodyHit = false →
        (checkPlayerSingleObstacleTriple p o).headHit = true →
        (checkPlayerSingleObstacleTriple p o).collisionPoint =
          (getDetailedCollision p.headBox (obstacleShape o)).collisionPoint ∧
        (checkPlayerSingleObstacleTriple p o).normal =
          (getDetailedCollision p.headBox (obstacleShape o)).normal ∧
        (checkPlayerSingleObstacleTriple p o).penetrationDepth =
          (getDetailedCollision p.headBox (obstacleShape o)).penetrationDepth) ∧
      ((checkPlayerSingleObstacleTriple p o).bodyHit = false →
        (checkPlayerSingleObstacleTriple p o).headHit = false →
        (checkPlayerSingleObstacleTriple p o).tailHit = true →
        (checkPlayerSingleObstacleTriple p o).collisionPoint =
          (getDetailedCollision p.tailBox (obstacleShape o)).collisionPoint ∧
        (checkPlayerSingleObstacleTriple p o).normal =
          (getDetailedCollision p.tailBox (obstacleShape o)).normal ∧
        (checkPlayerSingleObstacleTriple p o).penetrationDepth =
          (getDetailedCollision p.tailBox (obstacleShape o)).penetrationDepth)) := by
  cases hh : checkRectangleCollision p.headBox (obstacleShape o) <;>
    cases hb : checkRectangleCollision p.bodyBox (obstacleShape o) <;>
      cases ht : checkRectangleCollision p.tailBox (obstacleShape o) <;>
        simp [checkPlayerSingleObstacleTriple, determineCollisionType,
          defaultCollisionInfo, hh, hb, ht]

/-! C1: the driver's terminal check. -/

/-- Amended C1: the per-frame terminal check Game::checkCollisions goes
through the legacy path, so it returns true exactly when the player's
legacy bounding box (which mirrors the body region only) intersects the
collision rectangle of at least one live obstacle, short-circuiting on
the first such obstacle; the head and tail regions are not consulted. -/
theorem checkCollisions_legacy_body_only (g : GameModel) :
    Game.checkCollisions g = true ↔
      ∃ o ∈ g.mgr.obstacles,
        checkRectangleCollision g.player.boundingBox (obstacleShape o) = true := by
  simp [Game.checkCollisions, checkPlayerObstacleCollision, checkPlayerSingleObstacle,
    List.any_eq_true]

/-- The concrete player of the C1 counterexample: freshly constructed at
(100, 400). -/
def cexPlayer : PlayerState := Player.construct 100 400

/-- The concrete obstacle of the C1 counterexample: a small cactus at the
spawn height whose inset collision rectangle overlaps the head region but
not the body or tail regions. -/
def cexObstacle : Obstacle :=
  { posX := 140, posY := 849 / 2, velocityX := 200,
    obstacleType := ObstacleType.CACTUS_SMALL }

/-- The concrete driver state of the C1 counterexample. -/
def cexGame : GameModel :=
  { currentState := GameState.PLAYING
    previousState := GameState.PLAYING
    gameTime := 0
    currentScore := 0
    highScore := 0
    player := cexPlayer
    mgr := { ObstacleManager.construct with obstacles := [cexObstacle] } }

/-- Counterexample to C1 as stated: at this concrete state the triple
evaluation reports a hit (the head region overlaps the obstacle), yet
Game::checkCollisions returns false, because it tests only the legacy
bounding box, which mirrors the body region. -/
theorem checkCollisions_not_triple_counterexample :
    checkPlayerObstacleCollisionTriple cexPlayer [cexObstacle] = true ∧
      Game.checkCollisions cexGame = false := by
  constructor
  · norm_num [checkPlayerObstacleCollisionTriple, checkPlayerSingleObstacleTriple,
      cexPlayer, cexObstacle, Player.construct, Player.updateTripleCollisionBoxes,
      Player.updateLegacyBoundingBox, Player.updateJumpingStateCollision,
      Player.updateNormalStateCollision, normalHeadBox, normalBodyBox, normalTailBox,
      headWidthRatio, headHeightRatio, bodyWidthRatio, bodyHeightRatio,
      tailWidthRatio, tailHeightRatio, defaultSizeX, defaultSizeY,
      obstacleShape, getSizeForType, getCollisionSizeForType,
      checkRectangleCollision, Rect.minX, Rect.maxX, Rect.minY, Rect.maxY,
      min_def, max_def]
  · norm_num [Game.checkCollisions, checkPlayerObstacleCollision,
      checkPlayerSingleObstacle, cexGame, cexPlayer, cexObstacle, Player.construct,
      Player.updateTripleCollisionBoxes, Player.updateLegacyBoundingBox,
      Player.updateJumpingStateCollision, Player.updateNormalStateCollision,
      normalHeadBox, normalBodyBox, normalTailBox, headWidthRatio, headHeightRatio,
      bodyWidthRatio, bodyHeightRatio, tailWidthRatio, tailHeightRatio, defaultSizeX,
      defaultSizeY, obstacleShape, getSizeForType, getCollisionSizeForType,
      checkRectangleCollision, Rect.minX, Rect.maxX, Rect.minY, Rect.maxY,
      min_def, max_def]

/-! C4: the consecutive-hard-pattern guard. -/

lemma selectPattern_avail (s : MgrState) (r1 r2 : ℚ) :
    (ObstacleManager.selectPattern s r1 r2).2.availablePatterns =
      s.availablePatterns := by
  by_cases h : s.availablePatterns = []
  · simp only [ObstacleManager.selectPattern, if_pos h]
  · simp only [ObstacleManager.selectPattern, if_neg h]

lemma foldl_spawn_avail (f : ℕ → ObstacleType) (g : ℕ → ℚ) (l : List ℕ)
    (st : MgrState) :
    (l.foldl (fun acc i => ObstacleManager.spawnSingleObstacle (f i) (g i) acc)
      st).availablePatterns = st.availablePatterns := by
  induction l generalizing st with
  | nil => rfl
  | cons a as ih =>
    rw [List.foldl_cons, ih]
    rfl

lemma spawnPattern_avail (pat : ObstaclePattern) (rj : ℕ → ℚ) (s : MgrState) :
    (ObstacleManager.spawnPattern pat rj s).availablePatterns =
      s.availablePatterns := by
  simp only [ObstacleManager.spawnPattern]
  split_ifs
  · exact foldl_spawn_avail _ _ _ _
  · exact foldl_spawn_avail _ _ _ _

lemma updateAvailablePatterns_nonempty (gameTime : ℚ) (s : MgrState) :
    (ObstacleManager.updateAvailablePatterns gameTime s).availablePatterns ≠ [] := by
  simp only [ObstacleManager.updateAvailablePatterns]
  split_ifs with h
  · simp
  · exact h

lemma update_avail_nonempty (dt gameTime r1 r2 rTimer : ℚ) (rj : ℕ → ℚ)
    (s : MgrState) :
    (ObstacleManager.update dt gameTime r1 r2 rTimer rj s).availablePatterns ≠ [] := by
  simp only [ObstacleManager.update, ObstacleManager.removeOffScreenObstacles,
    ObstacleManager.updatePreRemoval]
  split_ifs with h
  · rw [spawnPattern_avail, selectPattern_avail]
    exact updateAvailablePatterns_nonempty gameTime
      (ObstacleManager.updateDifficulty gameTime s)
  · exact updateAvailablePatterns_nonempty gameTime
      (ObstacleManager.updateDifficulty gameTime s)

/-- In every reachable manager state a nonzero consecutive-hard counter
comes with a nonempty available-pattern list: the counter only moves
inside update, whose unlock refresh guarantees at least one available
pattern, while the constructor and clear zero the counter. -/
lemma mgrReach_counter_nonempty {s : MgrState} (hs : MgrReach s) :
    s.consecutiveHardPatterns ≠ 0 → s.availablePatterns ≠ [] := by
  induction hs with
  | init =>
    intro h
    exact absurd rfl h
  | update dt gameTime r1 r2 rTimer rj _ _ =>
    intro _
    exact update_avail_nonempty dt gameTime r1 r2 rTimer rj _
  | clear _ _ =>
    intro h
    exact absurd rfl h

/-- C4: in every reachable selector state that has already chosen two or
more consecutive hard patterns (consecutiveHardPatterns at least 2), the
next selectPattern call returns a pattern of difficulty at most 0.6 for
every outcome of the two random draws, and the consecutive-hard counter
is reset to zero by that call (the pick has difficulty at most 0.6). -/
theorem selectPattern_hard_guard {s : MgrState} (hs : MgrReach s) (r1 r2 : ℚ)
    (h2 : 2 ≤ s.consecutiveHardPatterns) :
    (patternDefinitions (ObstacleManager.selectPattern s r1 r2).1).patternDifficulty ≤
        3 / 5 ∧
      (ObstacleManager.selectPattern s r1 r2).2.consecutiveHardPatterns = 0 := by
  have hne : s.availablePatterns ≠ [] :=
    mgrReach_counter_nonempty hs (by omega)
  have havoid : ∀ p : ObstaclePattern,
      (patternDefinitions p).patternDifficulty > 3 / 5 →
      ObstacleManager.shouldAvoidPattern s p = true := by
    intro p hp
    unfold ObstacleManager.shouldAvoidPattern
    rw [Bool.or_eq_true, Bool.and_eq_true]
    exact Or.inl ⟨decide_eq_true hp, decide_eq_true h2⟩
  have hsel : (patternDefinitions (ObstacleManager.selectPattern s r1 r2).1).patternDifficulty ≤ 3 / 5 := by
    simp only [ObstacleManager.selectPattern, if_neg hne]
    by_cases hav : ObstacleManager.shouldAvoidPattern s
        (ObstacleManager.weightedPatternSelection s r1) = true
    · rw [if_pos hav]
      split_ifs <;> norm_num [patternDefinitions]
    · rw [if_neg hav]
      by_contra hgt
      push_neg at hgt
      exact hav (havoid _ hgt)
  refine ⟨hsel, ?_⟩
  simp only [ObstacleManager.selectPattern, if_neg hne] at hsel ⊢
  rw [if_neg (by linarith : ¬ (patternDefinitions
    (if ObstacleManager.shouldAvoidPattern s
        (ObstacleManager.weightedPatternSelection s r1) = true then
      if s.currentDifficulty < 3 / 10 then ObstaclePattern.SINGLE_SMALL
      else if s.currentDifficulty < 3 / 5 then
        (if r2 < 1 / 2 then ObstaclePattern.SINGLE_SMALL else ObstaclePattern.SINGLE_MID)
      else ObstaclePattern.WIDE_GAP
    else ObstacleManager.weightedPatternSelection s r1)).patternDifficulty > 3 / 5)]

/-- The concrete reachable selector state of the C4 witness: two manager
updates from construction, steered by explicit draws so that the Tight
Sequence pattern (difficulty 1.0) and then the Double Close pattern
(difficulty 0.65) are chosen, leaving the consecutive-hard counter at
two. -/
def c4State : MgrState :=
  ObstacleManager.update 2 32 (2000 / 3463) 0 0 (fun _ => 0)
    (ObstacleManager.update 30 30 1 0 0 (fun _ => 0) ObstacleManager.construct)

/-- Witness for C4 at the concrete reachable state. -/
theorem selectPattern_hard_guard_witness :
    (patternDefinitions (ObstacleManager.selectPattern c4State 1 0).1).patternDifficulty ≤
        3 / 5 ∧
      (ObstacleManager.selectPattern c4State 1 0).2.consecutiveHardPatterns = 0 :=
  selectPattern_hard_guard
    (MgrReach.update 2 32 (2000 / 3463) 0 0 (fun _ => 0)
      (MgrReach.update 30 30 1 0 0 (fun _ => 0) MgrReach.init)) 1 0
    (by
      norm_num [c4State, ObstacleManager.update, ObstacleManager.updatePreRemoval,
        ObstacleManager.removeOffScreenObstacles, ObstacleManager.updateDifficulty,
        ObstacleManager.updateAvailablePatterns, ObstacleManager.updateExistingObstacles,
        ObstacleManager.selectPattern, ObstacleManager.weightedPatternSelection,
        ObstacleManager.weightedScan, ObstacleManager.getPatternWeight,
        ObstacleManager.shouldAvoidPattern, ObstacleManager.spawnPattern,
        ObstacleManager.spawnSingleObstacle, ObstacleManager.construct,
        patternDefinitions, allPatterns, obstacleUpdate, obstacleIsOffScreen,
        getSizeForType, INITIAL_OBSTACLE_SPEED, SPEED_INCREASE_RATE,
        MAX_OBSTACLE_SPEED, INITIAL_SPAWN_INTERVAL, INTERVAL_DECREASE_RATE,
        MIN_SPAWN_INTERVAL, DIFFICULTY_INCREASE_RATE, MAX_CONSECUTIVE_HARD,
        PATTERN_COOLDOWN_TIME, SPAWN_POSITION_X, SPAWN_POSITION_Y,
        min_def, max_def, abs_eq_max_neg, List.cons_ne_nil, List.filter, List.foldl,
        List.zip, List.zipWith, List.getLastD])

end DinoRun



